import Mathlib

/-!
Shallow embedding of the kicad-parser-rs repository (s-expression lexer,
typed deserialization layer, and bounding-box geometry), together with
theorems settling the frozen claims about it.

Modelling conventions:
* Rust `f64` payloads carried by parsed tokens are modelled as `ℚ` (every
  finite double is a dyadic rational; all literals appearing in concrete
  statements below are integer-valued, where the two agree exactly).
* Bounding-box coordinates are modelled as `EReal`: the source initializes
  polygon boxes with `f64::INFINITY` / `f64::NEG_INFINITY`, so the coordinate
  domain of boxes genuinely contains the two infinities.  Finite coordinates
  are coerced from `ℚ` through `ℝ`.
* Rust `Result` is modelled as `Except`; a Rust panic (`unwrap` on `Err`) is
  modelled as a distinct `panic` outcome of the lexer, since claim C1 is about
  the distinction between an error value and a process fault.
* `nom`'s error plumbing (`VerboseError`, context stacks, messages) carries no
  information any claim inspects; errors are modelled as bare constructors.
-/

namespace KicadParser

/-- Untyped s-expression tree, from `src/sexpr/mod.rs` (`SExpr`,
`SExprList`, `SExprSymbol`, `SExprValue`).  The `Float` payload (`f64`)
is modelled as `ℚ`; the `Hex` payload (`u64` produced by the lexer) as `ℕ`. -/
inductive SExpr : Type where
  | list (children : List SExpr)
  | symbol (s : String)
  | value (s : String)
  | float (q : ℚ)
  | hex (n : ℕ)

/-- Result of a `nom` parser over the remaining input.  `err` is `Err::Error`
(recoverable, `alt` tries the next branch), `fail` is `Err::Failure`
(produced by `cut`, aborts `alt`), `panic` models a Rust panic reached
during parsing (the `unwrap` in the hex conversion). -/
inductive NomResult (α : Type) : Type where
  | ok (rest : List Char) (val : α)
  | err
  | fail
  | panic
  deriving DecidableEq, Repr

/-- Alternation: on a recoverable error try the second branch; `fail` and
`panic` propagate (nom `alt`). -/
def NomResult.orElse {α : Type} (r : NomResult α) (f : Unit → NomResult α) :
    NomResult α :=
  match r with
  | .err => f ()
  | r => r

/-- nom's `map` combinator on a parse result. -/
def NomResult.mapVal {α β : Type} (f : α → β) : NomResult α → NomResult β
  | .ok rest v => .ok rest (f v)
  | .err => .err
  | .fail => .fail
  | .panic => .panic

/-- The whitespace characters consumed by `sp` in `parse_sexpr.rs`
(`" \t\r\n"`). -/
def spChars : List Char := [' ', '\t', '\r', '\n']

/-- `sp`: `take_while` over the whitespace set; never fails
(`parse_sexpr.rs`, `fn sp`). -/
def sp (i : List Char) : List Char := i.dropWhile (fun c => c ∈ spChars)

/-- Character set of a bare symbol (`parse_sexpr.rs`, `fn symbol`):
alphanumeric or one of `_ - ? ! .`.  Rust `char::is_alphanumeric` is
Unicode-aware; the model uses Lean's `Char.isAlphanum`, which agrees on
ASCII (all inputs of the claims are ASCII). -/
def symbolChar (c : Char) : Bool :=
  c.isAlphanum || c = '_' || c = '-' || c = '?' || c = '!' || c = '.'

/-- `take_while1`: consume a non-empty maximal run satisfying `p`, else a
recoverable error. -/
def takeWhile1 (p : Char → Bool) (i : List Char) : NomResult (List Char) :=
  let taken := i.takeWhile p
  if taken.isEmpty then .err else .ok (i.drop taken.length) taken

/-- `fn symbol` from `parse_sexpr.rs`. -/
def symbolP (i : List Char) : NomResult (List Char) :=
  takeWhile1 symbolChar i

/-- `fn quoted_string` from `parse_sexpr.rs`:
`alt((delimited(char '"', is_not "\"", char '"'), tag "\"\""))`.
`is_not` requires at least one non-quote character, so the empty string is
handled by the second branch. -/
def quotedStringP (i : List Char) : NomResult (List Char) :=
  match i with
  | '"' :: rest =>
    let body := rest.takeWhile (fun c => c ≠ '"')
    if body.isEmpty then
      match rest with
      | '"' :: rest2 => .ok rest2 []
      | _ => .err
    else
      match rest.drop body.length with
      | '"' :: rest2 => .ok rest2 body
      | _ => .err
  | _ => .err

/-- Rust `char::is_ascii_hexdigit` (what `is_hex_digit` checks). -/
def isHexDigitChar (c : Char) : Bool :=
  ('0' ≤ c && c ≤ '9') || ('a' ≤ c && c ≤ 'f') || ('A' ≤ c && c ≤ 'F')

/-- Numeric value of one hex digit. -/
def hexVal (c : Char) : ℕ :=
  if '0' ≤ c && c ≤ '9' then c.toNat - '0'.toNat
  else if 'a' ≤ c && c ≤ 'f' then c.toNat - 'a'.toNat + 10
  else if 'A' ≤ c && c ≤ 'F' then c.toNat - 'A'.toNat + 10
  else 0

/-- `fn hexadecimal` from `parse_sexpr.rs`: `tag "0x"` then a non-empty run
of hex digits or `_`; underscores are stripped and the rest is converted
with `u64::from_str_radix(.., 16).unwrap()`.  `from_str_radix` returns
`Err` when the digits are empty or the value exceeds `u64::MAX`, so the
`unwrap` panics in exactly those cases. -/
def hexadecimalP (i : List Char) : NomResult ℕ :=
  match i with
  | '0' :: 'x' :: rest =>
    let digits := rest.takeWhile (fun c => isHexDigitChar c || c = '_')
    if digits.isEmpty then .err
    else
      let stripped := digits.filter (fun c => c ≠ '_')
      if stripped.isEmpty then .panic
      else
        let v := stripped.foldl (fun acc c => acc * 16 + hexVal c) 0
        if v < 2 ^ 64 then .ok (rest.drop digits.length) v else .panic
  | _ => .err

/-- Decimal digit test. -/
def isDigitChar (c : Char) : Bool := '0' ≤ c && c ≤ '9'

/-- Value of a run of decimal digits. -/
def digitsToNat (ds : List Char) : ℕ :=
  ds.foldl (fun acc c => acc * 10 + (c.toNat - '0'.toNat)) 0

/-- Recognizer of `nom`'s float grammar (`recognize_float`):
`sign? (digit1 ('.' digit1?)? | '.' digit1) (e|E sign? digit1)?`.
Returns the consumed pieces: sign, integer digits, fractional digits,
exponent (as an integer), and the remaining input. -/
def recognizeFloat (i : List Char) :
    NomResult (Bool × List Char × List Char × ℤ) :=
  let (neg, i1) :=
    match i with
    | '-' :: r => (true, r)
    | '+' :: r => (false, r)
    | _ => (false, i)
  let intDigits := i1.takeWhile isDigitChar
  if intDigits.isEmpty then
    -- second branch: '.' digit1
    match i1 with
    | '.' :: r =>
      let fracDigits := r.takeWhile isDigitChar
      if fracDigits.isEmpty then .err
      else
        let (e, rest) := recognizeExp (r.drop fracDigits.length)
        .ok rest (neg, [], fracDigits, e)
    | _ => .err
  else
    let i2 := i1.drop intDigits.length
    match i2 with
    | '.' :: r =>
      let fracDigits := r.takeWhile isDigitChar
      let (e, rest) := recognizeExp (r.drop fracDigits.length)
      .ok rest (neg, intDigits, fracDigits, e)
    | _ =>
      let (e, rest) := recognizeExp i2
      .ok rest (neg, intDigits, [], e)
where
  /-- Optional exponent: `(e|E) sign? digit1`; backtracks fully when the
  digits are missing. -/
  recognizeExp (i : List Char) : ℤ × List Char :=
    match i with
    | c :: r =>
      if c = 'e' ∨ c = 'E' then
        let (eneg, r1) :=
          match r with
          | '-' :: rr => (true, rr)
          | '+' :: rr => (false, rr)
          | _ => (false, r)
        let eDigits := r1.takeWhile isDigitChar
        if eDigits.isEmpty then (0, i)
        else
          let v : ℤ := digitsToNat eDigits
          (if eneg then -v else v, r1.drop eDigits.length)
      else (0, i)
    | [] => (0, i)

/-- `nom`'s `number::complete::double`, with the numeric value computed
exactly in `ℚ`.  The `nan`/`inf`/`infinity` exception tokens of
`recognize_float_or_exceptions` are recognized with the same token
boundaries as the source, but their payloads (IEEE specials) fall outside
the `ℚ` model and are represented by `0`; no claim observes them. -/
def doubleP (i : List Char) : NomResult ℚ :=
  match recognizeFloat i with
  | .ok rest (neg, intD, fracD, e) =>
    let mantissa : ℚ := (digitsToNat (intD ++ fracD) : ℚ) / (10 : ℚ) ^ fracD.length
    let scaled : ℚ := mantissa * (10 : ℚ) ^ e
    .ok rest (if neg then -scaled else scaled)
  | _ =>
    let lower := i.map Char.toLower
    if lower.take 3 = ['n', 'a', 'n'] then .ok (i.drop 3) 0
    else if lower.take 3 = ['i', 'n', 'f'] then .ok (i.drop 3) 0
    else .err

mutual

/-- `fn sexpr` from `parse_sexpr.rs`: skip whitespace, then
`alt((list, quoted_string, hexadecimal, double, symbol))`.
Recursion is fueled; `parseSexpr` below supplies fuel ample for any input
(each recursive call either consumes input or moves one level down a chain
of length at most three, see `parseSexpr`). -/
def sexprP : ℕ → List Char → NomResult SExpr
  | 0, _ => .fail
  | fuel + 1, i0 =>
    let i := sp i0
    NomResult.orElse (NomResult.mapVal SExpr.list (listP fuel i)) fun _ =>
    NomResult.orElse
      (NomResult.mapVal (fun s => SExpr.value (String.mk s)) (quotedStringP i))
      fun _ =>
    NomResult.orElse (NomResult.mapVal SExpr.hex (hexadecimalP i)) fun _ =>
    NomResult.orElse (NomResult.mapVal SExpr.float (doubleP i)) fun _ =>
    NomResult.mapVal (fun s => SExpr.symbol (String.mk s)) (symbolP i)

/-- `fn list` from `parse_sexpr.rs`: `'('` then
`cut(terminated(separated_list0(one_of " \n\t", sexpr), preceded(sp, ')')))`.
Everything after the opening parenthesis is under `cut`, so inner
recoverable errors become failures. -/
def listP : ℕ → List Char → NomResult (List SExpr)
  | 0, _ => .fail
  | fuel + 1, i =>
    match i with
    | '(' :: rest =>
      (match sepListP fuel rest with
        | .ok i1 items =>
          (match sp i1 with
            | ')' :: i2 => .ok i2 items
            | _ => .fail)
        | .err => .fail
        | .fail => .fail
        | .panic => .panic)
    | _ => .err

/-- `separated_list0(one_of " \n\t", sexpr)` (nom semantics): an initial
element or the empty list, then `sepLoopP`. -/
def sepListP : ℕ → List Char → NomResult (List SExpr)
  | 0, _ => .fail
  | fuel + 1, i =>
    match sexprP fuel i with
    | .err => .ok i []
    | .fail => .fail
    | .panic => .panic
    | .ok i1 x => sepLoopP fuel [x] i1

/-- Loop of `separated_list0`: a single separator character from
`" \n\t"` followed by an element; a recoverable error of either returns
the input positioned before the separator. -/
def sepLoopP : ℕ → List SExpr → List Char → NomResult (List SExpr)
  | 0, _, _ => .fail
  | fuel + 1, acc, i =>
    match i with
    | c :: rest =>
      if c = ' ' ∨ c = '\n' ∨ c = '\t' then
        match sexprP fuel rest with
        | .err => .ok i acc
        | .fail => .fail
        | .panic => .panic
        | .ok i2 x => sepLoopP fuel (acc ++ [x]) i2
      else .ok i acc
    | [] => .ok i acc

end

/-- Outcome of the top-level parse entry point: an error value, a parsed
root list, or a process panic. -/
inductive ParseOutcome : Type where
  | ok (l : List SExpr)
  | error
  | panic

/-- Fuel used by `parseSexpr`: between two consumptions of an input
character at most three parsers of the mutual block are entered
(`sexprP` → `listP` → `sepListP`, or `sepLoopP` → `sexprP`), so
`4 * (length + 1)` strictly dominates the recursion depth on any input. -/
def fuelFor (s : String) : ℕ := 4 * (s.length + 1)

/-- `pub fn parse_sexpr` from `parse_sexpr.rs`: run the `sexpr` parser; a
non-whitespace remainder is the `Unparsed input` error (checked first); a
non-list root is the `Root must be list` error; parser errors map to one
error value.  Rust `str::trim` trims Unicode whitespace; the model checks
the ASCII whitespace set, which agrees on the claims' inputs. -/
def parseSexpr (s : String) : ParseOutcome :=
  match sexprP (fuelFor s) s.data with
  | .ok rest e =>
    if rest.all (fun c => c ∈ spChars) then
      match e with
      | .list l => .ok l
      | _ => .error
    else .error
  | .err => .error
  | .fail => .error
  | .panic => .panic

end KicadParser

namespace KicadParser

/-- Parser error of the typed deserialization layer (`src/parser.rs`
`ParserError`).  The message/backtrace payloads carry diagnostic text that
no claim inspects; each kind is modelled as a bare constructor. -/
inductive ParserError : Type where
  | unexpected
  | unexpectedEnd
  | leftover
  | unexpectedSExpr
  deriving DecidableEq, Repr

/-- `SExpr::as_list` from `src/sexpr/mod.rs`. -/
def asList : SExpr → Except ParserError (List SExpr)
  | .list xs => .ok xs
  | _ => .error .unexpectedSExpr

/-- `SExprList::next_maybe`: pop the front child, if any
(`src/sexpr/sexpr_list.rs`). -/
def nextMaybe : List SExpr → Option (SExpr × List SExpr)
  | [] => none
  | x :: xs => some (x, xs)

/-- `SExprList::next_any`: pop the front child or report unexpected end. -/
def nextAny : List SExpr → Except ParserError (SExpr × List SExpr)
  | [] => .error .unexpectedEnd
  | x :: xs => .ok (x, xs)

/-- `SExprList::next_symbol` (`next_into::<SExprSymbol>`): the next child
must be a bare symbol. -/
def nextSymbol (l : List SExpr) : Except ParserError (String × List SExpr) := do
  match ← nextAny l with
  | (.symbol s, rest) => .ok (s, rest)
  | _ => .error .unexpectedSExpr

/-- `next_into::<String>` / `next_into::<SExprValue>`: the next child must
be a quoted value (`TryFrom<SExpr> for String` in `src/sexpr/mod.rs`). -/
def nextValue (l : List SExpr) : Except ParserError (String × List SExpr) := do
  match ← nextAny l with
  | (.value s, rest) => .ok (s, rest)
  | _ => .error .unexpectedSExpr

/-- `next_into::<f64>`: a `Float` yields its payload, a `Hex` is converted
with `as f64` (`TryFrom<SExpr> for f64` in `src/sexpr/mod.rs`); exact in
the `ℚ` model for every claim-relevant value. -/
def nextFloat (l : List SExpr) : Except ParserError (ℚ × List SExpr) := do
  match ← nextAny l with
  | (.float q, rest) => .ok (q, rest)
  | (.hex n, rest) => .ok ((n : ℚ), rest)
  | _ => .error .unexpectedSExpr

/-- `next_maybe_into::<f64>`: absent when the cursor is empty. -/
def nextMaybeFloat (l : List SExpr) :
    Except ParserError (Option ℚ × List SExpr) :=
  match l with
  | [] => .ok (none, [])
  | _ => do
    let (q, rest) ← nextFloat l
    .ok (some q, rest)

/-- Rust `f64 as u8`: saturating, truncating toward zero (negatives clamp
to `0`, values above `255` clamp to `255`). -/
def ratAsU8 (q : ℚ) : ℕ := min 255 (max 0 q.floor).toNat

/-- `next_into::<u8>` (`TryFrom<SExpr> for u8`): a `Float` is cast with
`as u8` (saturating), a `Hex` integer cast wraps modulo `256`. -/
def nextU8 (l : List SExpr) : Except ParserError (ℕ × List SExpr) := do
  match ← nextAny l with
  | (.float q, rest) => .ok (ratAsU8 q, rest)
  | (.hex n, rest) => .ok (n % 256, rest)
  | _ => .error .unexpectedSExpr

/-- `SExprList::peek_name`: the first child must exist and be a symbol;
its text is returned without consuming it. -/
def peekName : List SExpr → Except ParserError String
  | .symbol s :: _ => .ok s
  | [] => .error .unexpectedEnd
  | _ => .error .unexpectedSExpr

/-- `SExprList::next_maybe_list`: `Ok(None)` when empty, an error when the
next child is not a list. -/
def nextMaybeList (l : List SExpr) :
    Except ParserError (Option (List SExpr × List SExpr)) :=
  match l with
  | [] => .ok none
  | .list xs :: rest => .ok (some (xs, rest))
  | _ => .error .unexpectedSExpr

/-- `SExprList::next_maybe_symbol`: `Ok(None)` when empty, an error when
the next child is not a symbol. -/
def nextMaybeSymbol (l : List SExpr) :
    Except ParserError (Option (String × List SExpr)) :=
  match l with
  | [] => .ok none
  | .symbol s :: rest => .ok (some (s, rest))
  | _ => .error .unexpectedSExpr

/-- `SExprList::discard`: drop the first `amount` children, erroring when
fewer remain. -/
def discard (amount : ℕ) (l : List SExpr) :
    Except ParserError (List SExpr) :=
  if amount ≤ l.length then .ok (l.drop amount) else .error .unexpectedEnd

/-- `SExprList::expect_end`: succeed only on an exhausted cursor. -/
def expectEnd : List SExpr → Except ParserError Unit
  | [] => .ok ()
  | _ => .error .leftover

/-- Rust `str::starts_with`, over the model's character lists (structural,
so concrete instances reduce definitionally). -/
def strStartsWith (s p : String) : Bool :=
  s.data.take p.data.length = p.data

/-- Rust `str::ends_with`, over the model's character lists. -/
def strEndsWith (s p : String) : Bool :=
  s.data.drop (s.data.length - p.data.length) = p.data ∧
    p.data.length ≤ s.data.length

end KicadParser

namespace KicadParser

/-- Canonical layer names, from `src/common/footprint.rs` (`enum Layer`). -/
inductive Layer : Type where
  | FCu | BCu
  | In1Cu | In2Cu | In3Cu | In4Cu | In5Cu | In6Cu | In7Cu | In8Cu | In9Cu
  | In10Cu | In11Cu | In12Cu | In13Cu | In14Cu | In15Cu | In16Cu | In17Cu
  | In18Cu | In19Cu | In20Cu | In21Cu | In22Cu | In23Cu | In24Cu | In25Cu
  | In26Cu | In27Cu | In28Cu | In29Cu | In30Cu
  | BAdhes | FAdhes | BPaste | FPaste | BSilkS | FSilkS | BMask | FMask
  | DwgsUser | CmtsUser | Eco1User | Eco2User
  | EdgeCuts | FCrtYd | BCrtYd | FFab | BFab
  | User1 | User2 | User3 | User4 | User5 | User6 | User7 | User8 | User9
  deriving DecidableEq, Repr

/-- `#[default]` variant of `Layer` (Rust `Default` derive). -/
def Layer.default : Layer := .FCu

/-- The string-to-variant table inside `Layer::try_from`
(`src/common/footprint.rs`): the `match` over the canonical layer names,
with the fall-through arm returning `None` (the source's
`ParserError::unexpected`). -/
def Layer.ofName : String → Option Layer
  | "F.Cu" => some .FCu
  | "B.Cu" => some .BCu
  | "In1.Cu" => some .In1Cu
  | "In2.Cu" => some .In2Cu
  | "In3.Cu" => some .In3Cu
  | "In4.Cu" => some .In4Cu
  | "In5.Cu" => some .In5Cu
  | "In6.Cu" => some .In6Cu
  | "In7.Cu" => some .In7Cu
  | "In8.Cu" => some .In8Cu
  | "In9.Cu" => some .In9Cu
  | "In10.Cu" => some .In10Cu
  | "In11.Cu" => some .In11Cu
  | "In12.Cu" => some .In12Cu
  | "In13.Cu" => some .In13Cu
  | "In14.Cu" => some .In14Cu
  | "In15.Cu" => some .In15Cu
  | "In16.Cu" => some .In16Cu
  | "In17.Cu" => some .In17Cu
  | "In18.Cu" => some .In18Cu
  | "In19.Cu" => some .In19Cu
  | "In20.Cu" => some .In20Cu
  | "In21.Cu" => some .In21Cu
  | "In22.Cu" => some .In22Cu
  | "In23.Cu" => some .In23Cu
  | "In24.Cu" => some .In24Cu
  | "In25.Cu" => some .In25Cu
  | "In26.Cu" => some .In26Cu
  | "In27.Cu" => some .In27Cu
  | "In28.Cu" => some .In28Cu
  | "In29.Cu" => some .In29Cu
  | "In30.Cu" => some .In30Cu
  | "B.Adhes" => some .BAdhes
  | "F.Adhes" => some .FAdhes
  | "B.Paste" => some .BPaste
  | "F.Paste" => some .FPaste
  | "B.SilkS" => some .BSilkS
  | "F.SilkS" => some .FSilkS
  | "B.Mask" => some .BMask
  | "F.Mask" => some .FMask
  | "Dwgs.User" => some .DwgsUser
  | "Cmts.User" => some .CmtsUser
  | "Eco1.User" => some .Eco1User
  | "Eco2.User" => some .Eco2User
  | "Edge.Cuts" => some .EdgeCuts
  | "F.CrtYd" => some .FCrtYd
  | "B.CrtYd" => some .BCrtYd
  | "F.Fab" => some .FFab
  | "B.Fab" => some .BFab
  | "User.1" => some .User1
  | "User.2" => some .User2
  | "User.3" => some .User3
  | "User.4" => some .User4
  | "User.5" => some .User5
  | "User.6" => some .User6
  | "User.7" => some .User7
  | "User.8" => some .User8
  | "User.9" => some .User9
  | _ => none

/-- `Layer::try_from` (`src/common/footprint.rs`): expect the `layer` tag
symbol, then a quoted value holding the name, look the name up in the
canonical table, and require the list to end. -/
def Layer.tryFrom (e : SExpr) : Except ParserError Layer := do
  let l ← asList e
  let (tag, l) ← nextSymbol l
  if tag ≠ "layer" then .error .unexpected else
  let (name, l) ← nextValue l
  match Layer.ofName name with
  | none => .error .unexpected
  | some layer => do
    let _ ← expectEnd l
    .ok layer

/-- `impl Display for Layer` (`src/common/footprint.rs`): the canonical
name of each variant. -/
def Layer.display : Layer → String
  | .FCu => "F.Cu"
  | .BCu => "B.Cu"
  | .In1Cu => "In1.Cu"
  | .In2Cu => "In2.Cu"
  | .In3Cu => "In3.Cu"
  | .In4Cu => "In4.Cu"
  | .In5Cu => "In5.Cu"
  | .In6Cu => "In6.Cu"
  | .In7Cu => "In7.Cu"
  | .In8Cu => "In8.Cu"
  | .In9Cu => "In9.Cu"
  | .In10Cu => "In10.Cu"
  | .In11Cu => "In11.Cu"
  | .In12Cu => "In12.Cu"
  | .In13Cu => "In13.Cu"
  | .In14Cu => "In14.Cu"
  | .In15Cu => "In15.Cu"
  | .In16Cu => "In16.Cu"
  | .In17Cu => "In17.Cu"
  | .In18Cu => "In18.Cu"
  | .In19Cu => "In19.Cu"
  | .In20Cu => "In20.Cu"
  | .In21Cu => "In21.Cu"
  | .In22Cu => "In22.Cu"
  | .In23Cu => "In23.Cu"
  | .In24Cu => "In24.Cu"
  | .In25Cu => "In25.Cu"
  | .In26Cu => "In26.Cu"
  | .In27Cu => "In27.Cu"
  | .In28Cu => "In28.Cu"
  | .In29Cu => "In29.Cu"
  | .In30Cu => "In30.Cu"
  | .BAdhes => "B.Adhes"
  | .FAdhes => "F.Adhes"
  | .BPaste => "B.Paste"
  | .FPaste => "F.Paste"
  | .BSilkS => "B.SilkS"
  | .FSilkS => "F.SilkS"
  | .BMask => "B.Mask"
  | .FMask => "F.Mask"
  | .DwgsUser => "Dwgs.User"
  | .CmtsUser => "Cmts.User"
  | .Eco1User => "Eco1.User"
  | .Eco2User => "Eco2.User"
  | .EdgeCuts => "Edge.Cuts"
  | .FCrtYd => "F.CrtYd"
  | .BCrtYd => "B.CrtYd"
  | .FFab => "F.Fab"
  | .BFab => "B.Fab"
  | .User1 => "User.1"
  | .User2 => "User.2"
  | .User3 => "User.3"
  | .User4 => "User.4"
  | .User5 => "User.5"
  | .User6 => "User.6"
  | .User7 => "User.7"
  | .User8 => "User.8"
  | .User9 => "User.9"

/-- The canonical layer-name list, in the order of the `match` arms of
`Layer::try_from`.  Used to state C10. -/
def canonicalLayerNames : List String :=
  ["F.Cu", "B.Cu",
   "In1.Cu", "In2.Cu", "In3.Cu", "In4.Cu", "In5.Cu", "In6.Cu", "In7.Cu",
   "In8.Cu", "In9.Cu", "In10.Cu", "In11.Cu", "In12.Cu", "In13.Cu",
   "In14.Cu", "In15.Cu", "In16.Cu", "In17.Cu", "In18.Cu", "In19.Cu",
   "In20.Cu", "In21.Cu", "In22.Cu", "In23.Cu", "In24.Cu", "In25.Cu",
   "In26.Cu", "In27.Cu", "In28.Cu", "In29.Cu", "In30.Cu",
   "B.Adhes", "F.Adhes", "B.Paste", "F.Paste", "B.SilkS", "F.SilkS",
   "B.Mask", "F.Mask",
   "Dwgs.User", "Cmts.User", "Eco1.User", "Eco2.User",
   "Edge.Cuts", "F.CrtYd", "B.CrtYd", "F.Fab", "B.Fab",
   "User.1", "User.2", "User.3", "User.4", "User.5", "User.6", "User.7",
   "User.8", "User.9"]

end KicadParser

namespace KicadParser

/-- `Point` (`src/common/footprint.rs` / `positionals.rs`); `f64`
coordinates modelled as `ℚ`. -/
structure Point : Type where
  x : ℚ := 0
  y : ℚ := 0
  deriving DecidableEq, Repr

/-- `Position` with optional rotation angle. -/
structure Position : Type where
  x : ℚ := 0
  y : ℚ := 0
  angle : Option ℚ := none
  deriving DecidableEq, Repr

/-- `StrokeType` variants; the Rust `#[default]` is `Default`. -/
inductive StrokeType : Type where
  | default
  | solid
  | dash
  | dashDot
  | dashDotDot
  | dot
  deriving DecidableEq, Repr

/-- `RgbaColor(u8, u8, u8, u8)`. -/
structure RgbaColor : Type where
  r : ℕ := 0
  g : ℕ := 0
  b : ℕ := 0
  a : ℕ := 0
  deriving DecidableEq, Repr

/-- `Stroke`: width, line style, optional color. -/
structure Stroke : Type where
  width : ℚ := 0
  line_type : StrokeType := .default
  color : Option RgbaColor := none
  deriving DecidableEq, Repr

/-- `Uuid(String)`.  The Rust `Default` generates a fresh timestamp string
(`Uuid::new`), a side effect outside the model; the model's default is the
empty string and no claim observes a defaulted UUID's contents. -/
structure Uuid : Type where
  s : String := ""
  deriving DecidableEq, Repr

/-- `Property`: free-form key/value pair of a footprint. -/
structure Property : Type where
  key : String := ""
  value : String := ""
  deriving DecidableEq, Repr

/-- `ZoneConnect` variants. -/
inductive ZoneConnect : Type where
  | none
  | thermal
  | solid
  deriving DecidableEq, Repr

/-- `FootprintType`; Rust `#[default]` is `Smd`. -/
inductive FootprintType : Type where
  | smd
  | throughHole
  deriving DecidableEq, Repr

/-- `FootprintAttributes` (the `(attr ...)` bundle). -/
structure FootprintAttributes : Type where
  footprint_type : FootprintType := .smd
  board_only : Bool := false
  exclude_from_pos_files : Bool := false
  exclude_from_bom : Bool := false
  deriving DecidableEq, Repr

/-- `Model3D`: path plus 3D offset/scale/rotation triples. -/
structure Model3D : Type where
  file : String := ""
  position : ℚ × ℚ × ℚ := (0, 0, 0)
  scale : ℚ × ℚ × ℚ := (0, 0, 0)
  rotation : ℚ × ℚ × ℚ := (0, 0, 0)
  deriving DecidableEq, Repr

/-- `FootprintText` (identical struct in `graphic.rs` and `footprint.rs`). -/
inductive FootprintTextType : Type where
  | reference
  | value
  | user
  deriving DecidableEq, Repr

/-- `FootprintText`: a text graphic. -/
structure FootprintText : Type where
  text_type : FootprintTextType := .reference
  text : String := ""
  position : Position := {}
  unlocked : Bool := false
  layer : Layer := Layer.default
  hide : Bool := false
  uuid : Uuid := {}
  deriving DecidableEq, Repr

/-- `FootprintTextBox`.  The point list (`PointList(Vec<Point>)` in the
snapshot's `positionals.rs` / `footprint.rs`) is carried as `List Point`. -/
structure FootprintTextBox : Type where
  locked : Bool := false
  text : String := ""
  start : Option Point := none
  end_ : Option Point := none
  points : List Point := []
  angle : Option ℚ := none
  layer : Layer := Layer.default
  uuid : Uuid := {}
  stroke : Option Stroke := none
  deriving DecidableEq, Repr

/-- `FootprintLine`; the `f32` width is modelled as `ℚ`. -/
structure FootprintLine : Type where
  start : Point := {}
  end_ : Point := {}
  layer : Layer := Layer.default
  stroke : Stroke := {}
  locked : Bool := false
  uuid : Uuid := {}
  width : ℚ := 0
  deriving DecidableEq, Repr

/-- `FootprintRectangle`. -/
structure FootprintRectangle : Type where
  start : Point := {}
  end_ : Point := {}
  width : ℚ := 0
  layer : Layer := Layer.default
  stroke : Stroke := {}
  fill : Bool := false
  locked : Bool := false
  uuid : Uuid := {}
  deriving DecidableEq, Repr

/-- `FootprintCircle`: center and a point marking the end of the radius. -/
structure FootprintCircle : Type where
  center : Point := {}
  end_ : Point := {}
  layer : Layer := Layer.default
  stroke : Stroke := {}
  width : ℚ := 0
  fill : Bool := false
  locked : Bool := false
  uuid : Uuid := {}
  deriving DecidableEq, Repr

/-- `FootprintArc`: start, midpoint, end. -/
structure FootprintArc : Type where
  start : Point := {}
  mid : Point := {}
  end_ : Point := {}
  layer : Layer := Layer.default
  width : ℚ := 0
  stroke : Stroke := {}
  locked : Bool := false
  uuid : Uuid := {}
  deriving DecidableEq, Repr

/-- `FootprintPolygon`. -/
structure FootprintPolygon : Type where
  points : List Point := []
  layer : Layer := Layer.default
  stroke : Stroke := {}
  fill : Bool := false
  locked : Bool := false
  uuid : Uuid := {}
  width : ℚ := 0
  deriving DecidableEq, Repr

/-- `FootprintCurve` (cubic Bezier control points). -/
structure FootprintCurve : Type where
  points : List Point := []
  layer : Layer := Layer.default
  stroke : Stroke := {}
  locked : Bool := false
  width : ℚ := 0
  uuid : Uuid := {}
  deriving DecidableEq, Repr

/-- The eight-variant graphic union.  `graphic.rs` (`Graphic`) and
`footprint.rs` (`FootprintGraphic`) declare this enum twice with identical
variants and payload structs; the model shares one type for both. -/
inductive Graphic : Type where
  | text (v : FootprintText)
  | textBox (v : FootprintTextBox)
  | line (v : FootprintLine)
  | rectangle (v : FootprintRectangle)
  | circle (v : FootprintCircle)
  | arc (v : FootprintArc)
  | polygon (v : FootprintPolygon)
  | curve (v : FootprintCurve)
  deriving DecidableEq, Repr

/-- `Graphic::layer` (`src/common/graphic.rs`). -/
def Graphic.layer : Graphic → Layer
  | .text v => v.layer
  | .textBox v => v.layer
  | .line v => v.layer
  | .rectangle v => v.layer
  | .circle v => v.layer
  | .arc v => v.layer
  | .polygon v => v.layer
  | .curve v => v.layer

/-- `PadType`; Rust `#[default]` is `ThroughHole`. -/
inductive PadType : Type where
  | throughHole
  | smd
  | connect
  | nonPlatedThroughHole
  deriving DecidableEq, Repr

/-- `PadShape`; Rust `#[default]` is `Rectangle`. -/
inductive PadShape : Type where
  | circle
  | rectangle
  | oval
  | trapezoid
  | roundedRectangle
  | custom
  deriving DecidableEq, Repr

/-- `PadProperty` variants. -/
inductive PadProperty : Type where
  | heatsink
  | castellated
  deriving DecidableEq, Repr

/-- `PadCorner` variants. -/
inductive PadCorner : Type where
  | topLeft
  | topRight
  | bottomLeft
  | bottomRight
  deriving DecidableEq, Repr

/-- `Drill` specification. -/
structure Drill : Type where
  oval : Bool := false
  diameter : ℚ := 0
  width : Option ℚ := none
  offset : Option Point := none
  deriving DecidableEq, Repr

/-- `CustomPadClearance` variants. -/
inductive CustomPadClearance : Type where
  | outline
  | convexHull
  deriving DecidableEq, Repr

/-- `CustomPadOptions`. -/
structure CustomPadOptions : Type where
  clearance : CustomPadClearance := .outline
  anchor : PadShape := .rectangle
  deriving DecidableEq, Repr

/-- `PadGraphic` variants for custom pads. -/
inductive PadGraphic : Type where
  | line (start end_ : Point)
  | rectangle (start end_ : Point)
  | circle (center end_ : Point)
  | arc (start mid end_ : Point)
  | polygon (points : List Point)
  deriving DecidableEq, Repr

/-- `CustomPadPrimitives`. -/
structure CustomPadPrimitives : Type where
  graphics : List PadGraphic := []
  width : ℚ := 0
  fill : Bool := false
  deriving DecidableEq, Repr

/-- `Pad` (`src/common/footprint.rs`). -/
structure Pad : Type where
  number : String := ""
  pad_type : PadType := .throughHole
  shape : PadShape := .rectangle
  position : Position := {}
  locked : Bool := false
  size : ℚ × ℚ := (0, 0)
  drill : Option Drill := none
  layers : List Layer := []
  properties : List PadProperty := []
  remove_unused_layers : Bool := false
  keep_end_layers : Bool := false
  roundrect_rratio : Option ℚ := none
  chamfer_ratio : Option ℚ := none
  chamfer : List PadCorner := []
  net : Option (ℤ × String) := none
  uuid : Uuid := {}
  pin_function : Option String := none
  pin_type : Option String := none
  die_length : Option ℚ := none
  solder_mask_margin : Option ℚ := none
  solder_paste_margin : Option ℚ := none
  solder_paste_margin_ratio : Option ℚ := none
  clearance : Option ℚ := none
  zone_connection : Option ZoneConnect := none
  thermal_width : Option ℚ := none
  thermal_gap : Option ℚ := none
  custom_options : Option CustomPadOptions := none
  custom_primitives : Option CustomPadPrimitives := none
  deriving DecidableEq, Repr

/-- `Zone` placeholder (unimplemented in the source). -/
structure Zone : Type where
  deriving DecidableEq, Repr

/-- `Group` placeholder (unimplemented in the source). -/
structure Group : Type where
  deriving DecidableEq, Repr

/-- `Footprint` (`src/common/footprint.rs`). -/
structure Footprint : Type where
  library_link : Option String := none
  locked : Bool := false
  placed : Bool := false
  layer : Layer := Layer.default
  tedit : Option String := none
  uuid : Option Uuid := none
  position : Option Position := none
  tags : Option String := none
  description : Option String := none
  properties : List Property := []
  path : Option String := none
  autoplace_cost90 : Option ℤ := none
  autoplace_cost180 : Option ℤ := none
  solder_mask_margin : Option ℚ := none
  solder_paste_margin : Option ℚ := none
  solder_paste_ratio : Option ℚ := none
  clearance : Option ℚ := none
  zone_connect : Option ZoneConnect := none
  thermal_width : Option ℚ := none
  thermal_gap : Option ℚ := none
  attributes : Option FootprintAttributes := none
  private_layers : List Layer := []
  net_tie_pad_groups : List (List String) := []
  graphics : List Graphic := []
  pads : List Pad := []
  zones : List Zone := []
  groups : List Group := []
  models : List Model3D := []
  deriving DecidableEq, Repr

/-- `PcbLayerType`; Rust `#[default]` is `User`. -/
inductive PcbLayerType : Type where
  | user
  | jumper
  | mixed
  | power
  | signal
  deriving DecidableEq, Repr

/-- `PcbLayer` declaration row (`src/pcb_file/pcb_layer.rs`). -/
structure PcbLayer : Type where
  ordinal : ℕ := 0
  name : String := ""
  layer_type : PcbLayerType := .user
  user_name : Option String := none
  deriving DecidableEq, Repr

/-- `PcbNet` (`src/pcb_file/pcb_net.rs`). -/
structure PcbNet : Type where
  ordinal : ℕ := 0
  name : String := ""
  deriving DecidableEq, Repr

/-- `PcbProperty` (`src/pcb_file/pcb_property.rs`). -/
structure PcbProperty : Type where
  key : String := ""
  value : String := ""
  deriving DecidableEq, Repr

/-- `PcbFileGeneral` (`src/pcb_file/pcb_file_general.rs`). -/
structure PcbFileGeneral : Type where
  thickness : ℚ := 0
  deriving DecidableEq, Repr

/-- `PcbFile` (`src/pcb_file/mod.rs`). -/
structure PcbFile : Type where
  version : String := ""
  generator : String := ""
  generator_version : String := ""
  paper : String := ""
  general : PcbFileGeneral := {}
  layers : List PcbLayer := []
  properties : List PcbProperty := []
  nets : List PcbNet := []
  footprints : List Footprint := []
  graphics : List Graphic := []
  deriving DecidableEq, Repr

end KicadParser

namespace KicadParser

/-- `Point::try_from` (`src/common/footprint.rs`): skip the (arbitrary)
tag symbol, read x and y, require the list to end. -/
def Point.tryFrom (e : SExpr) : Except ParserError Point := do
  let l ← asList e
  let (_name, l) ← nextSymbol l
  let (x, l) ← nextFloat l
  let (y, l) ← nextFloat l
  let _ ← expectEnd l
  .ok { x := x, y := y }

/-- `Position::try_from`: expect the `at` tag, read x, y and an optional
trailing angle, require the list to end. -/
def Position.tryFrom (e : SExpr) : Except ParserError Position := do
  let l ← asList e
  let (tag, l) ← nextSymbol l
  if tag ≠ "at" then .error .unexpected else
  let (x, l) ← nextFloat l
  let (y, l) ← nextFloat l
  let (angle, l) ← nextMaybeFloat l
  let _ ← expectEnd l
  .ok { x := x, y := y, angle := angle }

/-- Loop of `PointList::try_from`: each child must be a list tagged `xy`,
converted through `Point::try_from`.  The cursor's `next_maybe_list` is
inlined as the pattern match (empty → done, non-list child → error). -/
def PointList.parseItems : List Point → List SExpr → Except ParserError (List Point)
  | acc, [] => .ok acc
  | acc, .list items :: rest => do
    let name ← peekName items
    if name ≠ "xy" then .error .unexpected else
    let p ← Point.tryFrom (.list items)
    PointList.parseItems (acc ++ [p]) rest
  | _, _ => .error .unexpectedSExpr

/-- `PointList::try_from`: the `pts` tag followed by `xy` pairs. -/
def PointList.tryFrom (e : SExpr) : Except ParserError (List Point) := do
  let l ← asList e
  let (tag, l) ← nextSymbol l
  if tag ≠ "pts" then .error .unexpected else
  PointList.parseItems [] l

/-- `StrokeType::try_from`: the `type` tag then one of the six style
symbols. -/
def StrokeType.tryFrom (e : SExpr) : Except ParserError StrokeType := do
  let l ← asList e
  let (tag, l) ← nextSymbol l
  if tag ≠ "type" then .error .unexpected else
  let (v, _) ← nextSymbol l
  if v = "dash" then .ok .dash
  else if v = "dash_dot" then .ok .dashDot
  else if v = "dash_dot_dot" then .ok .dashDotDot
  else if v = "dot" then .ok .dot
  else if v = "default" then .ok .default
  else if v = "solid" then .ok .solid
  else .error .unexpected

/-- `RgbaColor::try_from`: the `color` tag then four `u8` components and
the end of the list. -/
def RgbaColor.tryFrom (e : SExpr) : Except ParserError RgbaColor := do
  let l ← asList e
  let (tag, l) ← nextSymbol l
  if tag ≠ "color" then .error .unexpected else
  let (r, l) ← nextU8 l
  let (g, l) ← nextU8 l
  let (b, l) ← nextU8 l
  let (a, l) ← nextU8 l
  let _ ← expectEnd l
  .ok { r := r, g := g, b := b, a := a }

/-- Loop of `Stroke::try_from` over the nested attribute lists
(`width`, `type`, `color`; anything else silently skipped). -/
def Stroke.parseItems : Stroke → List SExpr → Except ParserError Stroke
  | st, [] => .ok st
  | st, .list items :: rest => do
    let name ← peekName items
    if name = "width" then do
      let items1 ← discard 1 items
      let (w, _) ← nextFloat items1
      Stroke.parseItems { st with width := w } rest
    else if name = "type" then do
      let lt ← StrokeType.tryFrom (.list items)
      Stroke.parseItems { st with line_type := lt } rest
    else if name = "color" then do
      let c ← RgbaColor.tryFrom (.list items)
      Stroke.parseItems { st with color := some c } rest
    else
      Stroke.parseItems st rest
  | _, _ => .error .unexpectedSExpr

/-- `Stroke::try_from`: the `stroke` tag then the attribute loop. -/
def Stroke.tryFrom (e : SExpr) : Except ParserError Stroke := do
  let l ← asList e
  let (tag, l) ← nextSymbol l
  if tag ≠ "stroke" then .error .unexpected else
  Stroke.parseItems {} l

/-- `Uuid::try_from`: the `uuid` tag, a non-empty quoted value, end of
list. -/
def Uuid.tryFrom (e : SExpr) : Except ParserError Uuid := do
  let l ← asList e
  let (tag, l) ← nextSymbol l
  if tag ≠ "uuid" then .error .unexpected else
  let (s, l) ← nextValue l
  if s = "" then .error .unexpected else
  let _ ← expectEnd l
  .ok { s := s }

/-- Loop of `FootprintAttributes::try_from` over bare symbols
(`next_maybe_symbol` inlined: non-symbol child → error). -/
def FootprintAttributes.parseItems :
    FootprintAttributes → List SExpr → Except ParserError FootprintAttributes
  | a, [] => .ok a
  | a, .symbol s :: rest =>
    if s = "smd" then
      FootprintAttributes.parseItems { a with footprint_type := .smd } rest
    else if s = "through_hole" then
      FootprintAttributes.parseItems { a with footprint_type := .throughHole } rest
    else if s = "board_only" then
      FootprintAttributes.parseItems { a with board_only := true } rest
    else if s = "exclude_from_pos_files" then
      FootprintAttributes.parseItems { a with exclude_from_pos_files := true } rest
    else if s = "exclude_from_bom" then
      FootprintAttributes.parseItems { a with exclude_from_bom := true } rest
    else
      FootprintAttributes.parseItems a rest
  | _, _ => .error .unexpectedSExpr

/-- `FootprintAttributes::try_from`: the `attr` tag then the symbol loop. -/
def FootprintAttributes.tryFrom (e : SExpr) :
    Except ParserError FootprintAttributes := do
  let l ← asList e
  let (tag, l) ← nextSymbol l
  if tag ≠ "attr" then .error .unexpected else
  FootprintAttributes.parseItems {} l

end KicadParser

namespace KicadParser

/-- Attribute loop of `FootprintText::try_from`
(`src/common/footprint.rs`): quoted values set the text, the symbols
`hide` and `unlocked` both set `hide = true` (the source's `unlocked` arm
assigns `hide`, not `unlocked`), `reference`/`value`/`user` set the text
type, nested `at`/`layer`/`uuid` lists set their fields, anything else is
skipped. -/
def FootprintText.parseItems :
    FootprintText → List SExpr → Except ParserError FootprintText
  | t, [] => .ok t
  | t, e :: rest =>
    match e with
    | .value v => FootprintText.parseItems { t with text := v } rest
    | .symbol s =>
      if s = "hide" then FootprintText.parseItems { t with hide := true } rest
      else if s = "unlocked" then
        FootprintText.parseItems { t with hide := true } rest
      else if s = "reference" then
        FootprintText.parseItems { t with text_type := .reference } rest
      else if s = "value" then
        FootprintText.parseItems { t with text_type := .value } rest
      else if s = "user" then
        FootprintText.parseItems { t with text_type := .user } rest
      else FootprintText.parseItems t rest
    | .list items => do
      let name ← peekName items
      if name = "at" then do
        let p ← Position.tryFrom (.list items)
        FootprintText.parseItems { t with position := p } rest
      else if name = "layer" then do
        let ly ← Layer.tryFrom (.list items)
        FootprintText.parseItems { t with layer := ly } rest
      else if name = "uuid" then do
        let u ← Uuid.tryFrom (.list items)
        FootprintText.parseItems { t with uuid := u } rest
      else FootprintText.parseItems t rest
    | _ => FootprintText.parseItems t rest

/-- `FootprintText::try_from` (`src/common/footprint.rs`): the exact
`fp_text` tag then the attribute loop. -/
def FootprintText.tryFrom (e : SExpr) : Except ParserError FootprintText := do
  let l ← asList e
  let (tag, l) ← nextSymbol l
  if tag ≠ "fp_text" then .error .unexpected else
  FootprintText.parseItems {} l

/-- Attribute loop of `FootprintTextBox::try_from`: here `locked` does set
`locked = true`. -/
def FootprintTextBox.parseItems :
    FootprintTextBox → List SExpr → Except ParserError FootprintTextBox
  | t, [] => .ok t
  | t, e :: rest =>
    match e with
    | .value v => FootprintTextBox.parseItems { t with text := v } rest
    | .symbol s =>
      if s = "locked" then
        FootprintTextBox.parseItems { t with locked := true } rest
      else FootprintTextBox.parseItems t rest
    | .list items => do
      let name ← peekName items
      if name = "start" then do
        let p ← Point.tryFrom (.list items)
        FootprintTextBox.parseItems { t with start := some p } rest
      else if name = "end" then do
        let p ← Point.tryFrom (.list items)
        FootprintTextBox.parseItems { t with end_ := some p } rest
      else if name = "uuid" then do
        let u ← Uuid.tryFrom (.list items)
        FootprintTextBox.parseItems { t with uuid := u } rest
      else if name = "layer" then do
        let ly ← Layer.tryFrom (.list items)
        FootprintTextBox.parseItems { t with layer := ly } rest
      else if name = "angle" then do
        let items1 ← discard 1 items
        let (a, _) ← nextMaybeFloat items1
        FootprintTextBox.parseItems { t with angle := a } rest
      else if name = "stroke" then do
        let st ← Stroke.tryFrom (.list items)
        FootprintTextBox.parseItems { t with stroke := some st } rest
      else if name = "pts" then do
        let pts ← PointList.tryFrom (.list items)
        FootprintTextBox.parseItems { t with points := pts } rest
      else FootprintTextBox.parseItems t rest
    | _ => FootprintTextBox.parseItems t rest

/-- `FootprintTextBox::try_from` (`src/common/footprint.rs`): the exact
`fp_text_box` tag then the attribute loop. -/
def FootprintTextBox.tryFrom (e : SExpr) :
    Except ParserError FootprintTextBox := do
  let l ← asList e
  let (tag, l) ← nextSymbol l
  if tag ≠ "fp_text_box" then .error .unexpected else
  FootprintTextBox.parseItems {} l

/-- Attribute loop of `FootprintLine::try_from`, identical in
`graphic.rs` and `footprint.rs`.  Note the `locked` arm of the source
assigns `line.locked = false` (settled by claim C5). -/
def FootprintLine.parseItems :
    FootprintLine → List SExpr → Except ParserError FootprintLine
  | ln, [] => .ok ln
  | ln, e :: rest =>
    match e with
    | .symbol s =>
      if s = "locked" then
        FootprintLine.parseItems { ln with locked := false } rest
      else FootprintLine.parseItems ln rest
    | .list items => do
      let name ← peekName items
      if name = "start" then do
        let p ← Point.tryFrom (.list items)
        FootprintLine.parseItems { ln with start := p } rest
      else if name = "end" then do
        let p ← Point.tryFrom (.list items)
        FootprintLine.parseItems { ln with end_ := p } rest
      else if name = "layer" then do
        let ly ← Layer.tryFrom (.list items)
        FootprintLine.parseItems { ln with layer := ly } rest
      else if name = "stroke" then do
        let st ← Stroke.tryFrom (.list items)
        FootprintLine.parseItems { ln with stroke := st } rest
      else if name = "uuid" then do
        let u ← Uuid.tryFrom (.list items)
        FootprintLine.parseItems { ln with uuid := u } rest
      else if name = "width" then do
        let items1 ← discard 1 items
        let (w, _) ← nextFloat items1
        FootprintLine.parseItems { ln with width := w } rest
      else FootprintLine.parseItems ln rest
    | _ => FootprintLine.parseItems ln rest

/-- `FootprintLine::try_from` from `src/common/footprint.rs`: the exact
`fp_line` tag then the loop. -/
def FootprintLine.tryFrom (e : SExpr) : Except ParserError FootprintLine := do
  let l ← asList e
  let (tag, l) ← nextSymbol l
  if tag ≠ "fp_line" then .error .unexpected else
  FootprintLine.parseItems {} l

/-- `FootprintLine::try_from` from `src/common/graphic.rs`
(`symbol_ends_with!(list, "_line")`): any tag with the `_line` suffix,
then the same loop. -/
def FootprintLine.tryFromG (e : SExpr) : Except ParserError FootprintLine := do
  let l ← asList e
  let (tag, l) ← nextSymbol l
  if ¬ strEndsWith tag "_line" then .error .unexpected else
  FootprintLine.parseItems {} l

/-- Attribute loop of `FootprintRectangle::try_from`; the `locked` arm
assigns `false` as in the source. -/
def FootprintRectangle.parseItems :
    FootprintRectangle → List SExpr → Except ParserError FootprintRectangle
  | r, [] => .ok r
  | r, e :: rest =>
    match e with
    | .symbol s =>
      if s = "locked" then
        FootprintRectangle.parseItems { r with locked := false } rest
      else FootprintRectangle.parseItems r rest
    | .list items => do
      let name ← peekName items
      if name = "start" then do
        let p ← Point.tryFrom (.list items)
        FootprintRectangle.parseItems { r with start := p } rest
      else if name = "end" then do
        let p ← Point.tryFrom (.list items)
        FootprintRectangle.parseItems { r with end_ := p } rest
      else if name = "layer" then do
        let ly ← Layer.tryFrom (.list items)
        FootprintRectangle.parseItems { r with layer := ly } rest
      else if name = "stroke" then do
        let st ← Stroke.tryFrom (.list items)
        FootprintRectangle.parseItems { r with stroke := st } rest
      else if name = "uuid" then do
        let u ← Uuid.tryFrom (.list items)
        FootprintRectangle.parseItems { r with uuid := u } rest
      else if name = "fill" then do
        let items1 ← discard 1 items
        let (v, _) ← nextSymbol items1
        FootprintRectangle.parseItems { r with fill := v = "yes" } rest
      else if name = "width" then do
        let items1 ← discard 1 items
        let (w, _) ← nextFloat items1
        FootprintRectangle.parseItems { r with width := w } rest
      else FootprintRectangle.parseItems r rest
    | _ => FootprintRectangle.parseItems r rest

/-- `FootprintRectangle::try_from` (`footprint.rs`): exact `fp_rect` tag. -/
def FootprintRectangle.tryFrom (e : SExpr) :
    Except ParserError FootprintRectangle := do
  let l ← asList e
  let (tag, l) ← nextSymbol l
  if tag ≠ "fp_rect" then .error .unexpected else
  FootprintRectangle.parseItems {} l

/-- Attribute loop of `FootprintCircle::try_from`; `locked` assigns
`false` as in the source. -/
def FootprintCircle.parseItems :
    FootprintCircle → List SExpr → Except ParserError FootprintCircle
  | c, [] => .ok c
  | c, e :: rest =>
    match e with
    | .symbol s =>
      if s = "locked" then
        FootprintCircle.parseItems { c with locked := false } rest
      else FootprintCircle.parseItems c rest
    | .list items => do
      let name ← peekName items
      if name = "center" then do
        let p ← Point.tryFrom (.list items)
        FootprintCircle.parseItems { c with center := p } rest
      else if name = "end" then do
        let p ← Point.tryFrom (.list items)
        FootprintCircle.parseItems { c with end_ := p } rest
      else if name = "layer" then do
        let ly ← Layer.tryFrom (.list items)
        FootprintCircle.parseItems { c with layer := ly } rest
      else if name = "stroke" then do
        let st ← Stroke.tryFrom (.list items)
        FootprintCircle.parseItems { c with stroke := st } rest
      else if name = "uuid" then do
        let u ← Uuid.tryFrom (.list items)
        FootprintCircle.parseItems { c with uuid := u } rest
      else if name = "fill" then do
        let items1 ← discard 1 items
        let (v, _) ← nextSymbol items1
        FootprintCircle.parseItems { c with fill := v = "yes" } rest
      else if name = "width" then do
        let items1 ← discard 1 items
        let (w, _) ← nextFloat items1
        FootprintCircle.parseItems { c with width := w } rest
      else FootprintCircle.parseItems c rest
    | _ => FootprintCircle.parseItems c rest

/-- `FootprintCircle::try_from` (`footprint.rs`): exact `fp_circle` tag. -/
def FootprintCircle.tryFrom (e : SExpr) :
    Except ParserError FootprintCircle := do
  let l ← asList e
  let (tag, l) ← nextSymbol l
  if tag ≠ "fp_circle" then .error .unexpected else
  FootprintCircle.parseItems {} l

/-- Attribute loop of `FootprintArc::try_from`; `locked` assigns `false`
as in the source. -/
def FootprintArc.parseItems :
    FootprintArc → List SExpr → Except ParserError FootprintArc
  | a, [] => .ok a
  | a, e :: rest =>
    match e with
    | .symbol s =>
      if s = "locked" then
        FootprintArc.parseItems { a with locked := false } rest
      else FootprintArc.parseItems a rest
    | .list items => do
      let name ← peekName items
      if name = "start" then do
        let p ← Point.tryFrom (.list items)
        FootprintArc.parseItems { a with start := p } rest
      else if name = "mid" then do
        let p ← Point.tryFrom (.list items)
        FootprintArc.parseItems { a with mid := p } rest
      else if name = "end" then do
        let p ← Point.tryFrom (.list items)
        FootprintArc.parseItems { a with end_ := p } rest
      else if name = "layer" then do
        let ly ← Layer.tryFrom (.list items)
        FootprintArc.parseItems { a with layer := ly } rest
      else if name = "stroke" then do
        let st ← Stroke.tryFrom (.list items)
        FootprintArc.parseItems { a with stroke := st } rest
      else if name = "uuid" then do
        let u ← Uuid.tryFrom (.list items)
        FootprintArc.parseItems { a with uuid := u } rest
      else if name = "width" then do
        let items1 ← discard 1 items
        let (w, _) ← nextFloat items1
        FootprintArc.parseItems { a with width := w } rest
      else FootprintArc.parseItems a rest
    | _ => FootprintArc.parseItems a rest

/-- `FootprintArc::try_from` (`footprint.rs`): exact `fp_arc` tag. -/
def FootprintArc.tryFrom (e : SExpr) : Except ParserError FootprintArc := do
  let l ← asList e
  let (tag, l) ← nextSymbol l
  if tag ≠ "fp_arc" then .error .unexpected else
  FootprintArc.parseItems {} l

/-- Attribute loop of `FootprintPolygon::try_from`; `locked` assigns
`false` as in the source. -/
def FootprintPolygon.parseItems :
    FootprintPolygon → List SExpr → Except ParserError FootprintPolygon
  | p, [] => .ok p
  | p, e :: rest =>
    match e with
    | .symbol s =>
      if s = "locked" then
        FootprintPolygon.parseItems { p with locked := false } rest
      else FootprintPolygon.parseItems p rest
    | .list items => do
      let name ← peekName items
      if name = "pts" then do
        let pts ← PointList.tryFrom (.list items)
        FootprintPolygon.parseItems { p with points := pts } rest
      else if name = "layer" then do
        let ly ← Layer.tryFrom (.list items)
        FootprintPolygon.parseItems { p with layer := ly } rest
      else if name = "stroke" then do
        let st ← Stroke.tryFrom (.list items)
        FootprintPolygon.parseItems { p with stroke := st } rest
      else if name = "uuid" then do
        let u ← Uuid.tryFrom (.list items)
        FootprintPolygon.parseItems { p with uuid := u } rest
      else if name = "width" then do
        let items1 ← discard 1 items
        let (w, _) ← nextFloat items1
        FootprintPolygon.parseItems { p with width := w } rest
      else if name = "fill" then do
        let items1 ← discard 1 items
        let (v, _) ← nextSymbol items1
        FootprintPolygon.parseItems { p with fill := v = "yes" } rest
      else FootprintPolygon.parseItems p rest
    | _ => FootprintPolygon.parseItems p rest

/-- `FootprintPolygon::try_from` (`footprint.rs`): exact `fp_poly` tag. -/
def FootprintPolygon.tryFrom (e : SExpr) :
    Except ParserError FootprintPolygon := do
  let l ← asList e
  let (tag, l) ← nextSymbol l
  if tag ≠ "fp_poly" then .error .unexpected else
  FootprintPolygon.parseItems {} l

/-- Attribute loop of `FootprintCurve::try_from`; `locked` assigns `false`
as in the source. -/
def FootprintCurve.parseItems :
    FootprintCurve → List SExpr → Except ParserError FootprintCurve
  | c, [] => .ok c
  | c, e :: rest =>
    match e with
    | .symbol s =>
      if s = "locked" then
        FootprintCurve.parseItems { c with locked := false } rest
      else FootprintCurve.parseItems c rest
    | .list items => do
      let name ← peekName items
      if name = "pts" then do
        let pts ← PointList.tryFrom (.list items)
        FootprintCurve.parseItems { c with points := pts } rest
      else if name = "layer" then do
        let ly ← Layer.tryFrom (.list items)
        FootprintCurve.parseItems { c with layer := ly } rest
      else if name = "stroke" then do
        let st ← Stroke.tryFrom (.list items)
        FootprintCurve.parseItems { c with stroke := st } rest
      else if name = "uuid" then do
        let u ← Uuid.tryFrom (.list items)
        FootprintCurve.parseItems { c with uuid := u } rest
      else if name = "width" then do
        let items1 ← discard 1 items
        let (w, _) ← nextFloat items1
        FootprintCurve.parseItems { c with width := w } rest
      else FootprintCurve.parseItems c rest
    | _ => FootprintCurve.parseItems c rest

/-- `FootprintCurve::try_from` (`footprint.rs`): exact `fp_curve` tag. -/
def FootprintCurve.tryFrom (e : SExpr) :
    Except ParserError FootprintCurve := do
  let l ← asList e
  let (tag, l) ← nextSymbol l
  if tag ≠ "fp_curve" then .error .unexpected else
  FootprintCurve.parseItems {} l

/-- `FootprintGraphic::try_from` (`src/common/footprint.rs`): peek the
leading tag and dispatch on the exact `fp_*` names. -/
def FootprintGraphic.tryFrom (e : SExpr) : Except ParserError Graphic := do
  let items ← asList e
  let name ← peekName items
  if name = "fp_text" then Graphic.text <$> FootprintText.tryFrom (.list items)
  else if name = "fp_text_box" then
    Graphic.textBox <$> FootprintTextBox.tryFrom (.list items)
  else if name = "fp_line" then
    Graphic.line <$> FootprintLine.tryFrom (.list items)
  else if name = "fp_rect" then
    Graphic.rectangle <$> FootprintRectangle.tryFrom (.list items)
  else if name = "fp_circle" then
    Graphic.circle <$> FootprintCircle.tryFrom (.list items)
  else if name = "fp_arc" then
    Graphic.arc <$> FootprintArc.tryFrom (.list items)
  else if name = "fp_poly" then
    Graphic.polygon <$> FootprintPolygon.tryFrom (.list items)
  else if name = "fp_curve" then
    Graphic.curve <$> FootprintCurve.tryFrom (.list items)
  else .error .unexpected

end KicadParser

namespace KicadParser

/-- Inner loop of the `layers` arm of `Pad::try_from`: each remaining
child must be a list and is converted through `Layer::try_from`
(`next_maybe_list` inlined). -/
def Pad.parseLayers : List Layer → List SExpr → Except ParserError (List Layer)
  | acc, [] => .ok acc
  | acc, .list items :: rest => do
    let ly ← Layer.tryFrom (.list items)
    Pad.parseLayers (acc ++ [ly]) rest
  | _, _ => .error .unexpectedSExpr

/-- Attribute loop of `Pad::try_from` (`src/common/footprint.rs`): the
pad-type and shape keywords set their fields; the source's `locked` arm
assigns `pad.locked = false` (settled by claim C5); `size` and `layers`
are the only nested lists handled, anything else is skipped. -/
def Pad.parseItems : Pad → List SExpr → Except ParserError Pad
  | pad, [] => .ok pad
  | pad, e :: rest =>
    match e with
    | .symbol s =>
      if s = "locked" then Pad.parseItems { pad with locked := false } rest
      else if s = "smd" then
        Pad.parseItems { pad with pad_type := .smd } rest
      else if s = "connect" then
        Pad.parseItems { pad with pad_type := .connect } rest
      else if s = "thru_hole" then
        Pad.parseItems { pad with pad_type := .throughHole } rest
      else if s = "np_thru_hole" then
        Pad.parseItems { pad with pad_type := .nonPlatedThroughHole } rest
      else if s = "oval" then
        Pad.parseItems { pad with shape := .oval } rest
      else if s = "circle" then
        Pad.parseItems { pad with shape := .circle } rest
      else if s = "custom" then
        Pad.parseItems { pad with shape := .custom } rest
      else if s = "rect" then
        Pad.parseItems { pad with shape := .rectangle } rest
      else if s = "trapezoid" then
        Pad.parseItems { pad with shape := .trapezoid } rest
      else if s = "roundrect" then
        Pad.parseItems { pad with shape := .roundedRectangle } rest
      else Pad.parseItems pad rest
    | .list items => do
      let name ← peekName items
      if name = "size" then do
        let items1 ← discard 1 items
        let (x, items2) ← nextFloat items1
        let (y, _) ← nextFloat items2
        Pad.parseItems { pad with size := (x, y) } rest
      else if name = "layers" then do
        let items1 ← discard 1 items
        let ls ← Pad.parseLayers [] items1
        Pad.parseItems { pad with layers := pad.layers ++ ls } rest
      else Pad.parseItems pad rest
    | _ => Pad.parseItems pad rest

/-- `Pad::try_from`: the exact `pad` tag then the attribute loop. -/
def Pad.tryFrom (e : SExpr) : Except ParserError Pad := do
  let l ← asList e
  let (tag, l) ← nextSymbol l
  if tag ≠ "pad" then .error .unexpected else
  Pad.parseItems {} l

/-- One iteration of the attribute loop of `Footprint::try_from`
(`src/common/footprint.rs`): quoted values set the library link, `locked`
and `placed` set their flags (here genuinely `true`), recognized nested
lists dispatch to their field parsers, tags starting with `fp_` append a
graphic, and every unrecognized child is skipped (`catch_all!`). -/
def Footprint.step (fp : Footprint) (e : SExpr) : Except ParserError Footprint :=
  match e with
  | .value v => .ok { fp with library_link := some v }
  | .symbol s =>
    if s = "locked" then .ok { fp with locked := true }
    else if s = "placed" then .ok { fp with placed := true }
    else .ok fp
  | .list items => do
    let name ← peekName items
    if name = "uuid" then do
      let u ← Uuid.tryFrom (.list items)
      .ok { fp with uuid := some u }
    else if name = "layer" then do
      let ly ← Layer.tryFrom (.list items)
      .ok { fp with layer := ly }
    else if name = "at" then do
      let p ← Position.tryFrom (.list items)
      .ok { fp with position := some p }
    else if name = "description" then do
      let items1 ← discard 1 items
      let (d, _) ← nextValue items1
      .ok { fp with description := some d }
    else if name = "tags" then do
      let items1 ← discard 1 items
      let (t, _) ← nextValue items1
      .ok { fp with tags := some t }
    else if name = "path" then do
      let items1 ← discard 1 items
      let (p, _) ← nextValue items1
      .ok { fp with path := some p }
    else if name = "attr" then do
      let a ← FootprintAttributes.tryFrom (.list items)
      .ok { fp with attributes := some a }
    else if strStartsWith name "fp_" then do
      let g ← FootprintGraphic.tryFrom (.list items)
      .ok { fp with graphics := fp.graphics ++ [g] }
    else .ok fp
  | _ => .ok fp

/-- The `while let Some(next) = list.next_maybe()` loop of
`Footprint::try_from`, as a fold of `Footprint.step`. -/
def Footprint.parseItems : Footprint → List SExpr → Except ParserError Footprint
  | fp, [] => .ok fp
  | fp, e :: rest => do
    let fp1 ← Footprint.step fp e
    Footprint.parseItems fp1 rest

/-- `Footprint::try_from`: note the source never consumes or checks a
leading `footprint` tag; the whole child list goes through the loop. -/
def Footprint.tryFrom (e : SExpr) : Except ParserError Footprint := do
  let items ← asList e
  Footprint.parseItems {} items

end KicadParser

namespace KicadParser

noncomputable section

/-- `f64::MAX` as a real number: `(2^53 − 1) · 2^971`. -/
def f64MAX : ℝ := (2 ^ 53 - 1) * 2 ^ 971

/-- Coordinates parsed from the file (`ℚ` in the model) embedded into the
extended reals used for box coordinates. -/
def q2e (q : ℚ) : EReal := ((q : ℝ) : EReal)

/-- `BoundingBox` (`src/common/positionals.rs`).  Coordinates live in
`EReal` because the source manipulates `f64::INFINITY` /
`f64::NEG_INFINITY` as box coordinates (polygon/curve initialization). -/
structure BoundingBox : Type where
  min_x : EReal
  min_y : EReal
  max_x : EReal
  max_y : EReal

/-- `impl Default for BoundingBox`: minima start at `f64::MAX`, maxima at
`f64::MIN` (which equals `−f64::MAX`). -/
def BoundingBox.default : BoundingBox :=
  { min_x := ((f64MAX : ℝ) : EReal)
    min_y := ((f64MAX : ℝ) : EReal)
    max_x := ((-f64MAX : ℝ) : EReal)
    max_y := ((-f64MAX : ℝ) : EReal) }

/-- `BoundingBox::envelop`: pairwise min of minima and max of maxima.
The source mutates `self`; the model returns the updated accumulator. -/
def BoundingBox.envelop (b other : BoundingBox) : BoundingBox :=
  { min_x := min b.min_x other.min_x
    min_y := min b.min_y other.min_y
    max_x := max b.max_x other.max_x
    max_y := max b.max_y other.max_y }

/-- `BoundingBox::move_by`: translate both corners by the same offset. -/
def BoundingBox.move_by (b : BoundingBox) (dx dy : ℚ) : BoundingBox :=
  { min_x := b.min_x + q2e dx
    min_y := b.min_y + q2e dy
    max_x := b.max_x + q2e dx
    max_y := b.max_y + q2e dy }

/-- A box is degenerate/empty when its minima lie strictly above its
maxima (spec §3: "a box is degenerate/empty until the first envelop"). -/
def BoundingBox.degenerate (b : BoundingBox) : Prop :=
  b.max_x < b.min_x ∧ b.max_y < b.min_y

/-- `FootprintText::bounding_box` (`src/common/graphic.rs`): placeholder
box of width 10 and height 5 anchored at the position. -/
def FootprintText.bounding_box (t : FootprintText) : BoundingBox :=
  { min_x := q2e t.position.x
    min_y := q2e (t.position.y - 5 / 2)
    max_x := q2e (t.position.x + 10)
    max_y := q2e (t.position.y + 5 / 2) }

/-- `FootprintTextBox::bounding_box`: the declared corners, with the start
defaulting to the origin and the end defaulting to the start. -/
def FootprintTextBox.bounding_box (t : FootprintTextBox) : BoundingBox :=
  let mnx := (t.start.map Point.x).getD 0
  let mny := (t.start.map Point.y).getD 0
  let mxx := (t.end_.map Point.x).getD mnx
  let mxy := (t.end_.map Point.y).getD mny
  { min_x := q2e mnx, min_y := q2e mny, max_x := q2e mxx, max_y := q2e mxy }

/-- `FootprintLine::bounding_box` (`src/common/graphic.rs`): the start
point becomes the min corner and the end point the max corner, with no
per-axis min/max (settled by claim C4). -/
def FootprintLine.bounding_box (l : FootprintLine) : BoundingBox :=
  { min_x := q2e l.start.x
    min_y := q2e l.start.y
    max_x := q2e l.end_.x
    max_y := q2e l.end_.y }

/-- `FootprintRectangle::bounding_box`: identical shape to the line
version — `start` to `end` directly. -/
def FootprintRectangle.bounding_box (r : FootprintRectangle) : BoundingBox :=
  { min_x := q2e r.start.x
    min_y := q2e r.start.y
    max_x := q2e r.end_.x
    max_y := q2e r.end_.y }

/-- `FootprintCircle::bounding_box`: center ± the Euclidean distance from
the center to the end-of-radius point, on both axes. -/
def FootprintCircle.bounding_box (c : FootprintCircle) : BoundingBox :=
  let radius : ℝ :=
    Real.sqrt (((c.end_.x : ℝ) - (c.center.x : ℝ)) ^ 2 +
      ((c.end_.y : ℝ) - (c.center.y : ℝ)) ^ 2)
  { min_x := (((c.center.x : ℝ) - radius : ℝ) : EReal)
    min_y := (((c.center.y : ℝ) - radius : ℝ) : EReal)
    max_x := (((c.center.x : ℝ) + radius : ℝ) : EReal)
    max_y := (((c.center.y : ℝ) + radius : ℝ) : EReal) }

/-- `FootprintArc::bounding_box`: per-axis min/max over start, end, mid
(in the source's association order). -/
def FootprintArc.bounding_box (a : FootprintArc) : BoundingBox :=
  { min_x := q2e (min (min a.start.x a.end_.x) a.mid.x)
    min_y := q2e (min (min a.start.y a.end_.y) a.mid.y)
    max_x := q2e (max (max a.start.x a.end_.x) a.mid.x)
    max_y := q2e (max (max a.start.y a.end_.y) a.mid.y) }

/-- Point fold shared by the polygon and curve boxes
(`src/common/graphic.rs`): minima start at `f64::INFINITY` (`⊤`), maxima
at `f64::NEG_INFINITY` (`⊥`), then per-point min/max.  The snapshot's
`graphic.rs` iterates a `PointItem` enum whose definition lives in a file
missing from `src/`; the model follows the `PointList(Vec<Point>)` of the
snapshot's `positionals.rs`/`footprint.rs` and spec §4.4 ("box spans the
min/max over all points in the point list"). -/
def foldPointsBox (pts : List Point) : BoundingBox :=
  pts.foldl
    (fun bb p =>
      { min_x := min bb.min_x (q2e p.x)
        min_y := min bb.min_y (q2e p.y)
        max_x := max bb.max_x (q2e p.x)
        max_y := max bb.max_y (q2e p.y) })
    { min_x := ⊤, min_y := ⊤, max_x := ⊥, max_y := ⊥ }

/-- `FootprintPolygon::bounding_box`. -/
def FootprintPolygon.bounding_box (p : FootprintPolygon) : BoundingBox :=
  foldPointsBox p.points

/-- `FootprintCurve::bounding_box`. -/
def FootprintCurve.bounding_box (c : FootprintCurve) : BoundingBox :=
  foldPointsBox c.points

/-- `impl GetBoundingBox for Graphic` (`src/common/graphic.rs`). -/
def Graphic.bounding_box : Graphic → BoundingBox
  | .text v => v.bounding_box
  | .textBox v => v.bounding_box
  | .line v => v.bounding_box
  | .rectangle v => v.bounding_box
  | .circle v => v.bounding_box
  | .arc v => v.bounding_box
  | .polygon v => v.bounding_box
  | .curve v => v.bounding_box

/-- `impl GetBoundingBox for PcbFile` (`src/pcb_file/mod.rs`): envelop the
boxes of the graphics on `Edge.Cuts`, skipping every other layer.  The
source compares `graphics.layer() != "Edge.Cuts"` through a string
comparison whose `PartialEq` impl is outside the snapshot; the model
compares the canonical `Display` name, which is that string. -/
def PcbFile.bounding_box (p : PcbFile) : BoundingBox :=
  p.graphics.foldl
    (fun bb g =>
      if Layer.display g.layer ≠ "Edge.Cuts" then bb
      else bb.envelop g.bounding_box)
    BoundingBox.default

/-- Translation of a box by a footprint's optional position: an absent
position translates by nothing. -/
def BoundingBox.move_by_pos (b : BoundingBox) : Option Position → BoundingBox
  | some p => b.move_by p.x p.y
  | none => b

/-- Modelled from the spec: the `GetBoundingBox` impl for `Footprint` is
missing from the `src/` snapshot (only its callers under `examples/`
remain).  Spec §4.4: "Footprint aggregate: envelop all graphics' boxes,
excluding graphics on the fabrication-layer (`F.Fab`) from the envelope,
then translate the result by the footprint's own position offset."  An
absent position leaves the envelope untranslated. -/
def Footprint.bounding_box (fp : Footprint) : BoundingBox :=
  (fp.graphics.foldl
    (fun bb g =>
      if g.layer = Layer.FFab then bb else bb.envelop g.bounding_box)
    BoundingBox.default).move_by_pos fp.position

/-- Spec-side aggregate used to state the refinement claims C8/C9:
envelop a list of boxes into the default/identity box, in order. -/
def envelopAll (boxes : List BoundingBox) : BoundingBox :=
  boxes.foldl BoundingBox.envelop BoundingBox.default

end

end KicadParser

namespace KicadParser

noncomputable section

/-- `0 < f64::MAX`. -/
theorem f64MAX_pos : (0 : ℝ) < f64MAX := by
  unfold f64MAX; positivity

/-- C2: `BoundingBox::envelop` computes pairwise min/max; it is
idempotent and order-commutative on the accumulator and monotonic; and
enveloping a box into the default/identity box yields exactly that box
whenever the box's minima are at most `f64::MAX` and its maxima at least
`f64::MIN` (that is, for every box with finite coordinates).  The
unrestricted identity of the claim fails for boxes with infinite
coordinates, which the code itself produces (see the counterexample). -/
theorem C2_envelop_algebra :
    (∀ b o : BoundingBox,
      b.envelop o =
        { min_x := min b.min_x o.min_x
          min_y := min b.min_y o.min_y
          max_x := max b.max_x o.max_x
          max_y := max b.max_y o.max_y }) ∧
    (∀ b o : BoundingBox, (b.envelop o).envelop o = b.envelop o) ∧
    (∀ b o₁ o₂ : BoundingBox,
      (b.envelop o₁).envelop o₂ = (b.envelop o₂).envelop o₁) ∧
    (∀ b o : BoundingBox,
      (b.envelop o).min_x ≤ b.min_x ∧ (b.envelop o).min_y ≤ b.min_y ∧
      b.max_x ≤ (b.envelop o).max_x ∧ b.max_y ≤ (b.envelop o).max_y) ∧
    (∀ b : BoundingBox,
      b.min_x ≤ ((f64MAX : ℝ) : EReal) → b.min_y ≤ ((f64MAX : ℝ) : EReal) →
      ((-f64MAX : ℝ) : EReal) ≤ b.max_x → ((-f64MAX : ℝ) : EReal) ≤ b.max_y →
      BoundingBox.default.envelop b = b) := by
  refine ⟨fun b o => rfl, ?_, ?_, ?_, ?_⟩
  · intro b o
    simp [BoundingBox.envelop, min_assoc, max_assoc]
  · intro b o₁ o₂
    simp [BoundingBox.envelop, min_right_comm, sup_right_comm]
  · intro b o
    exact ⟨min_le_left _ _, min_le_left _ _, le_max_left _ _, le_max_left _ _⟩
  · intro b h1 h2 h3 h4
    cases b with
    | mk mnx mny mxx mxy =>
      simp only [BoundingBox.default, BoundingBox.envelop]
      rw [min_eq_right h1, min_eq_right h2, max_eq_right h3, max_eq_right h4]

/-- C2 witness: the conditional identity applied at a concrete finite
box. -/
theorem C2_envelop_algebra_witness :
    BoundingBox.default.envelop
        { min_x := ((0 : ℝ) : EReal), min_y := ((0 : ℝ) : EReal),
          max_x := ((1 : ℝ) : EReal), max_y := ((1 : ℝ) : EReal) } =
      { min_x := ((0 : ℝ) : EReal), min_y := ((0 : ℝ) : EReal),
        max_x := ((1 : ℝ) : EReal), max_y := ((1 : ℝ) : EReal) } := by
  have hmin : ((0 : ℝ) : EReal) ≤ ((f64MAX : ℝ) : EReal) :=
    EReal.coe_le_coe_iff.2 (le_of_lt f64MAX_pos)
  have hmax : ((-f64MAX : ℝ) : EReal) ≤ ((1 : ℝ) : EReal) :=
    EReal.coe_le_coe_iff.2 (by nlinarith [f64MAX_pos])
  exact C2_envelop_algebra.2.2.2.2 _ hmin hmin hmax hmax

/-- C2 counterexample: enveloping the box of an empty point list (minima
`+∞`, maxima `−∞`, exactly what `FootprintPolygon::bounding_box` returns
for an empty polygon) into the default box does not yield that box: the
default's `f64::MAX` minimum wins against `+∞`. -/
theorem C2_identity_counterexample :
    BoundingBox.default.envelop (foldPointsBox []) ≠ foldPointsBox [] := by
  intro h
  have hx := congrArg BoundingBox.min_x h
  simp only [foldPointsBox, List.foldl_nil, BoundingBox.envelop,
    BoundingBox.default] at hx
  rw [min_eq_left le_top] at hx
  exact EReal.coe_ne_top _ hx

end

end KicadParser

namespace KicadParser

noncomputable section

/-- C3: for every circle graphic, the bounding box is the center minus and
plus the Euclidean distance from the center to the end-of-radius point in
both axes; in particular, the circle with center (0,0) and end (3,0) has
box min=(−3,−3), max=(3,3). -/
theorem C3_circle_bounding_box :
    (∀ c : FootprintCircle,
      c.bounding_box =
        { min_x := (((c.center.x : ℝ) -
            Real.sqrt (((c.end_.x : ℝ) - (c.center.x : ℝ)) ^ 2 +
              ((c.end_.y : ℝ) - (c.center.y : ℝ)) ^ 2) : ℝ) : EReal)
          min_y := (((c.center.y : ℝ) -
            Real.sqrt (((c.end_.x : ℝ) - (c.center.x : ℝ)) ^ 2 +
              ((c.end_.y : ℝ) - (c.center.y : ℝ)) ^ 2) : ℝ) : EReal)
          max_x := (((c.center.x : ℝ) +
            Real.sqrt (((c.end_.x : ℝ) - (c.center.x : ℝ)) ^ 2 +
              ((c.end_.y : ℝ) - (c.center.y : ℝ)) ^ 2) : ℝ) : EReal)
          max_y := (((c.center.y : ℝ) +
            Real.sqrt (((c.end_.x : ℝ) - (c.center.x : ℝ)) ^ 2 +
              ((c.end_.y : ℝ) - (c.center.y : ℝ)) ^ 2) : ℝ) : EReal) }) ∧
    FootprintCircle.bounding_box
        { center := { x := 0, y := 0 }, end_ := { x := 3, y := 0 } } =
      { min_x := ((-3 : ℝ) : EReal), min_y := ((-3 : ℝ) : EReal),
        max_x := ((3 : ℝ) : EReal), max_y := ((3 : ℝ) : EReal) } := by
  refine ⟨fun c => rfl, ?_⟩
  have hr :
      Real.sqrt ((((3 : ℚ) : ℝ) - ((0 : ℚ) : ℝ)) ^ 2 +
        (((0 : ℚ) : ℝ) - ((0 : ℚ) : ℝ)) ^ 2) = 3 := by
    have h9 : (((3 : ℚ) : ℝ) - ((0 : ℚ) : ℝ)) ^ 2 +
        (((0 : ℚ) : ℝ) - ((0 : ℚ) : ℝ)) ^ 2 = (3 : ℝ) ^ 2 := by
      push_cast; ring
    rw [h9, Real.sqrt_sq (by norm_num : (0 : ℝ) ≤ 3)]
  simp only [FootprintCircle.bounding_box, hr]
  have c1 : (((0 : ℚ) : ℝ) - 3 : ℝ) = (-3 : ℝ) := by push_cast; ring
  have c2 : (((0 : ℚ) : ℝ) + 3 : ℝ) = (3 : ℝ) := by push_cast; ring
  rw [c1, c2]

/-- Concrete line for the C4 counterexample: start=(5,0), end=(1,1). -/
def lineCex : FootprintLine :=
  { start := { x := 5, y := 0 }, end_ := { x := 1, y := 1 } }

/-- C4 counterexample: the line bounding box does not take the per-axis
min/max over the two endpoints; for start=(5,0), end=(1,1) the code
returns min_x = 5, whereas the claimed formula gives min_x = 1. -/
theorem C4_minmax_counterexample :
    lineCex.bounding_box ≠
      { min_x := q2e (min lineCex.start.x lineCex.end_.x)
        min_y := q2e (min lineCex.start.y lineCex.end_.y)
        max_x := q2e (max lineCex.start.x lineCex.end_.x)
        max_y := q2e (max lineCex.start.y lineCex.end_.y) } := by
  intro h
  have hx := congrArg BoundingBox.min_x h
  simp only [lineCex, FootprintLine.bounding_box, q2e] at hx
  rw [EReal.coe_eq_coe_iff] at hx
  norm_num at hx

/-- C4 (amended): the line and rectangle bounding boxes copy the two
endpoint/corner fields directly — min corner = `start`, max corner =
`end` — with no per-axis min/max, so the result is order-dependent; when
the two points are already ordered per axis (start ≤ end componentwise),
this coincides with the claimed min/max form. -/
theorem C4_line_rect_bounding_box :
    (∀ l : FootprintLine,
      l.bounding_box =
        { min_x := q2e l.start.x, min_y := q2e l.start.y,
          max_x := q2e l.end_.x, max_y := q2e l.end_.y }) ∧
    (∀ r : FootprintRectangle,
      r.bounding_box =
        { min_x := q2e r.start.x, min_y := q2e r.start.y,
          max_x := q2e r.end_.x, max_y := q2e r.end_.y }) ∧
    (∀ l : FootprintLine, l.start.x ≤ l.end_.x → l.start.y ≤ l.end_.y →
      l.bounding_box =
        { min_x := q2e (min l.start.x l.end_.x)
          min_y := q2e (min l.start.y l.end_.y)
          max_x := q2e (max l.start.x l.end_.x)
          max_y := q2e (max l.start.y l.end_.y) }) ∧
    (∀ r : FootprintRectangle, r.start.x ≤ r.end_.x → r.start.y ≤ r.end_.y →
      r.bounding_box =
        { min_x := q2e (min r.start.x r.end_.x)
          min_y := q2e (min r.start.y r.end_.y)
          max_x := q2e (max r.start.x r.end_.x)
          max_y := q2e (max r.start.y r.end_.y) }) := by
  refine ⟨fun l => rfl, fun r => rfl, ?_, ?_⟩
  · intro l hx hy
    simp [FootprintLine.bounding_box, min_eq_left hx, min_eq_left hy,
      max_eq_right hx, max_eq_right hy]
  · intro r hx hy
    simp [FootprintRectangle.bounding_box, min_eq_left hx, min_eq_left hy,
      max_eq_right hx, max_eq_right hy]

/-- C4 witness: the ordered-endpoints case applied at a concrete line. -/
theorem C4_line_rect_bounding_box_witness :
    FootprintLine.bounding_box
        { start := { x := 1, y := 2 }, end_ := { x := 3, y := 4 } } =
      { min_x := q2e (min 1 3), min_y := q2e (min 2 4),
        max_x := q2e (max 1 3), max_y := q2e (max 2 4) } :=
  C4_line_rect_bounding_box.2.2.1
    { start := { x := 1, y := 2 }, end_ := { x := 3, y := 4 } }
    (by norm_num) (by norm_num)

end

end KicadParser

namespace KicadParser

noncomputable section

/-- The skip-if-`F.Fab` fold of the footprint aggregate equals the fold of
`envelop` over the boxes of the non-`F.Fab` graphics. -/
theorem foldl_envelop_skip_fab (gs : List Graphic) (bb : BoundingBox) :
    gs.foldl
        (fun bb g =>
          if g.layer = Layer.FFab then bb else bb.envelop g.bounding_box) bb =
      ((gs.filter (fun g => g.layer ≠ Layer.FFab)).map
        Graphic.bounding_box).foldl BoundingBox.envelop bb := by
  induction gs generalizing bb with
  | nil => rfl
  | cons g gs ih =>
    by_cases h : g.layer = Layer.FFab <;>
      simp [List.filter_cons, h, ih]

/-- `Display` maps a layer to `"Edge.Cuts"` exactly for the `EdgeCuts`
variant. -/
theorem Layer.display_eq_edge_cuts_iff (l : Layer) :
    Layer.display l = "Edge.Cuts" ↔ l = Layer.EdgeCuts := by
  cases l <;> decide

/-- The skip-unless-`Edge.Cuts` fold of the board aggregate equals the
fold of `envelop` over the boxes of the `Edge.Cuts` graphics. -/
theorem foldl_envelop_edge_cuts (gs : List Graphic) (bb : BoundingBox) :
    gs.foldl
        (fun bb g =>
          if Layer.display g.layer ≠ "Edge.Cuts" then bb
          else bb.envelop g.bounding_box) bb =
      ((gs.filter (fun g => g.layer = Layer.EdgeCuts)).map
        Graphic.bounding_box).foldl BoundingBox.envelop bb := by
  have hfun : (fun (bb : BoundingBox) (g : Graphic) =>
      if Layer.display g.layer ≠ "Edge.Cuts" then bb
      else bb.envelop g.bounding_box) =
      (fun (bb : BoundingBox) (g : Graphic) =>
      if g.layer = Layer.EdgeCuts then bb.envelop g.bounding_box else bb) := by
    funext bb g
    by_cases h : g.layer = Layer.EdgeCuts
    · simp [h, Layer.display]
    · simp [h, Layer.display_eq_edge_cuts_iff]
  rw [hfun]
  induction gs generalizing bb with
  | nil => rfl
  | cons g gs ih =>
    by_cases h : g.layer = Layer.EdgeCuts <;>
      simp [List.filter_cons, h, ih]

/-- The default box, translated by any offset, stays degenerate: its
maxima lie strictly below its minima. -/
theorem default_move_by_pos_degenerate (pos : Option Position) :
    (BoundingBox.default.move_by_pos pos).degenerate := by
  have hlt : (-f64MAX : ℝ) < f64MAX := by nlinarith [f64MAX_pos]
  cases pos with
  | none =>
    exact ⟨EReal.coe_lt_coe_iff.2 hlt, EReal.coe_lt_coe_iff.2 hlt⟩
  | some p =>
    constructor <;>
    · simp only [BoundingBox.move_by_pos, BoundingBox.move_by,
        BoundingBox.default, q2e]
      rw [← EReal.coe_add, ← EReal.coe_add]
      exact EReal.coe_lt_coe_iff.2 (by linarith)

/-- C8: the footprint aggregate bounding box envelops the boxes of all
graphics not on `F.Fab` and translates the result by the footprint's
position offset; a footprint all of whose graphics lie on `F.Fab` gets
the (translated) default box, which is empty/degenerate. -/
theorem C8_footprint_bounding_box :
    (∀ fp : Footprint,
      fp.bounding_box =
        (envelopAll ((fp.graphics.filter (fun g => g.layer ≠ Layer.FFab)).map
          Graphic.bounding_box)).move_by_pos fp.position) ∧
    (∀ fp : Footprint, (∀ g ∈ fp.graphics, g.layer = Layer.FFab) →
      fp.bounding_box.degenerate) := by
  have main : ∀ fp : Footprint,
      fp.bounding_box =
        (envelopAll ((fp.graphics.filter (fun g => g.layer ≠ Layer.FFab)).map
          Graphic.bounding_box)).move_by_pos fp.position := by
    intro fp
    unfold Footprint.bounding_box envelopAll
    rw [foldl_envelop_skip_fab]
  refine ⟨main, ?_⟩
  intro fp hall
  have hfilter : fp.graphics.filter (fun g => g.layer ≠ Layer.FFab) = [] := by
    simp only [List.filter_eq_nil_iff]
    intro g hg
    simp [hall g hg]
  rw [main fp, hfilter]
  exact default_move_by_pos_degenerate fp.position

/-- C8 witness: a footprint whose only graphic is a line on `F.Fab` has a
degenerate bounding box. -/
theorem C8_footprint_bounding_box_witness :
    (Footprint.bounding_box
      { graphics := [Graphic.line { layer := Layer.FFab }],
        position := some { x := 2, y := 7 } }).degenerate :=
  C8_footprint_bounding_box.2
    { graphics := [Graphic.line { layer := Layer.FFab }],
      position := some { x := 2, y := 7 } }
    (by intro g hg; simp at hg; subst hg; rfl)

/-- C9: the board aggregate bounding box envelops exactly the boxes of the
board-level graphics on `Edge.Cuts`; graphics on every other layer
contribute nothing, and with no `Edge.Cuts` graphic the result is the
default box. -/
theorem C9_board_bounding_box :
    (∀ p : PcbFile,
      p.bounding_box =
        envelopAll ((p.graphics.filter (fun g => g.layer = Layer.EdgeCuts)).map
          Graphic.bounding_box)) ∧
    (∀ p : PcbFile, (∀ g ∈ p.graphics, g.layer ≠ Layer.EdgeCuts) →
      p.bounding_box = BoundingBox.default) := by
  have main : ∀ p : PcbFile,
      p.bounding_box =
        envelopAll ((p.graphics.filter (fun g => g.layer = Layer.EdgeCuts)).map
          Graphic.bounding_box) := by
    intro p
    unfold PcbFile.bounding_box envelopAll
    rw [foldl_envelop_edge_cuts]
  refine ⟨main, ?_⟩
  intro p hall
  have hfilter : p.graphics.filter (fun g => g.layer = Layer.EdgeCuts) = [] := by
    simp only [List.filter_eq_nil_iff]
    intro g hg
    simp [hall g hg]
  rw [main p, hfilter]
  rfl

/-- C9 witness: a board whose only graphic is a line on `F.Cu` has the
default (empty) aggregate box. -/
theorem C9_board_bounding_box_witness :
    PcbFile.bounding_box { graphics := [Graphic.line { layer := Layer.FCu }] } =
      BoundingBox.default :=
  C9_board_bounding_box.2 { graphics := [Graphic.line { layer := Layer.FCu }] }
    (by intro g hg; simp at hg; subst hg; decide)

end

end KicadParser

namespace KicadParser

/-- C1: the primary parse entry point does not always return an error
value on malformed input — a hex literal whose digits denote a value not
fitting in an unsigned 64-bit integer reaches the
`u64::from_str_radix(..).unwrap()` in `fn hexadecimal` and panics
(`0x10000000000000000` = 2^64).  The three malformed inputs of the spec do
produce error values. -/
theorem C1_hex_overflow_panics :
    parseSexpr "(0x10000000000000000)" = .panic ∧
    parseSexpr "(1 2" = .error ∧
    parseSexpr "\"unterminated" = .error ∧
    parseSexpr ")" = .error :=
  ⟨rfl, rfl, rfl, rfl⟩

/-- C5: a bare `locked` symbol does not set the locked flag of a graphic
or pad — the source's `locked` match arms assign `false`
(`graphic.rs` `FootprintLine::try_from` and its five siblings,
`footprint.rs` `Pad::try_from`), and `fp_text`'s `unlocked` arm assigns
`hide` instead of `unlocked`.  The analogous pad-type, shape and `hide`
keywords do set their fields. -/
theorem C5_locked_keyword_bug :
    (FootprintLine.tryFromG (.list [.symbol "fp_line", .symbol "locked"])).map
        FootprintLine.locked = .ok false ∧
    (FootprintLine.tryFrom (.list [.symbol "fp_line", .symbol "locked"])).map
        FootprintLine.locked = .ok false ∧
    (Pad.tryFrom (.list [.symbol "pad", .symbol "locked"])).map
        Pad.locked = .ok false ∧
    (Pad.tryFrom (.list [.symbol "pad", .symbol "smd"])).map
        Pad.pad_type = .ok PadType.smd ∧
    (Pad.tryFrom (.list [.symbol "pad", .symbol "circle"])).map
        Pad.shape = .ok PadShape.circle ∧
    (FootprintText.tryFrom (.list [.symbol "fp_text", .symbol "hide"])).map
        FootprintText.hide = .ok true ∧
    (FootprintText.tryFrom (.list [.symbol "fp_text", .symbol "unlocked"])).map
        FootprintText.unlocked = .ok false := by
  refine ⟨?_, ?_, ?_, ?_, ?_, ?_, ?_⟩ <;> with_unfolding_all rfl

/-- The synthetic unrecognized nested list of the spec's tolerance
scenario. -/
def futureField : SExpr := .list [.symbol "future_field", .float 1, .float 2]

/-- An unrecognized nested tag is a no-op for the footprint loop
(`catch_all!` branch of `Footprint::try_from`). -/
theorem Footprint.step_futureField (fp : Footprint) :
    Footprint.step fp futureField = .ok fp := rfl

/-- C6: appending an unrecognized nested list (tag `future_field`) to any
footprint child sequence that deserializes successfully leaves the result
unchanged; concretely, a footprint with a recognized `tags` field and the
unknown list parses with `tags` populated. -/
theorem C6_unknown_attribute_tolerance :
    (∀ (fp0 fp : Footprint) (items : List SExpr),
      Footprint.parseItems fp0 items = .ok fp →
      Footprint.parseItems fp0 (items ++ [futureField]) = .ok fp) ∧
    (Footprint.tryFrom (.list [.symbol "footprint",
        .list [.symbol "tags", .value "hello"], futureField])).map
      Footprint.tags = .ok (some "hello") := by
  constructor
  · intro fp0 fp items h
    induction items generalizing fp0 with
    | nil =>
      simp only [Footprint.parseItems] at h
      cases h
      rfl
    | cons e items ih =>
      rw [List.cons_append]
      simp only [Footprint.parseItems] at h ⊢
      cases hstep : Footprint.step fp0 e with
      | error err =>
        rw [hstep] at h
        exact Except.noConfusion h
      | ok fp1 =>
        rw [hstep] at h
        exact ih fp1 h
  · with_unfolding_all rfl

/-- C6 witness: the preservation statement applied at the concrete
recognized `tags` field. -/
theorem C6_unknown_attribute_tolerance_witness :
    Footprint.parseItems {}
        ([SExpr.list [.symbol "tags", .value "hello"]] ++ [futureField]) =
      .ok { tags := some "hello" } :=
  C6_unknown_attribute_tolerance.1 {} { tags := some "hello" }
    [SExpr.list [.symbol "tags", .value "hello"]] (by with_unfolding_all rfl)

/-- C7: the generic parse entry point errors on trailing non-whitespace
input and on a non-list root, for every input; and concretely on an
unterminated list, an unterminated quoted string, a stray closing
parenthesis and a bare numeric root, while a balanced well-formed list
parses to the mirroring `List`. -/
theorem C7_parse_error_modes :
    (∀ (s : String) (rest : List Char) (e : SExpr),
      sexprP (fuelFor s) s.data = .ok rest e →
      rest.all (fun c => c ∈ spChars) = false →
      parseSexpr s = .error) ∧
    (∀ (s : String) (rest : List Char) (e : SExpr),
      sexprP (fuelFor s) s.data = .ok rest e →
      rest.all (fun c => c ∈ spChars) = true →
      parseSexpr s = (match e with | .list l => .ok l | _ => .error)) ∧
    parseSexpr "(1 2" = .error ∧
    parseSexpr "\"unterminated" = .error ∧
    parseSexpr ")" = .error ∧
    parseSexpr "7" = .error ∧
    parseSexpr "(1 (2 3) \"bar\")" =
      .ok [.float 1, .list [.float 2, .float 3], .value "bar"] := by
  refine ⟨?_, ?_, rfl, rfl, rfl, rfl, by with_unfolding_all rfl⟩
  · intro s rest e h hall
    unfold parseSexpr
    rw [h]
    simp [hall]
  · intro s rest e h hall
    unfold parseSexpr
    rw [h]
    simp [hall]

/-- C7 witness: the trailing-input case at `"(1) x"` and the bare-atom
root case at `"7"`. -/
theorem C7_parse_error_modes_witness :
    parseSexpr "(1) x" = .error ∧ parseSexpr "7" = .error := by
  constructor
  · exact C7_parse_error_modes.1 "(1) x" [' ', 'x'] (.list [.float 1])
      (by with_unfolding_all rfl) (by rfl)
  · exact C7_parse_error_modes.2.1 "7" [] (.float 7)
      (by with_unfolding_all rfl) (by rfl)

end KicadParser

namespace KicadParser

/-- Reduction of an `Except` bind on a success value. -/
theorem except_ok_bind {α β ε : Type} (a : α) (f : α → Except ε β) :
    (Except.ok (ε := ε) a >>= f) = f a := rfl

/-- `Layer::try_from` on a well-shaped `(layer NAME)` list is exactly the
canonical-name table lookup. -/
theorem Layer.tryFrom_layer_list (name : String) :
    Layer.tryFrom (.list [.symbol "layer", .value name]) =
      (match Layer.ofName name with
       | some l => .ok l
       | none => .error .unexpected) := by
  cases h : Layer.ofName name <;>
    simp [Layer.tryFrom, asList, nextSymbol, nextAny, nextValue, expectEnd, h,
      except_ok_bind]

/-- A successful table lookup maps back to its name under `Display`. -/
theorem Layer.ofName_display (name : String) (l : Layer) :
    Layer.ofName name = some l → Layer.display l = name := by
  unfold Layer.ofName
  split <;> intro h <;> (try cases h) <;> simp_all [Layer.display]

/-- Every variant's canonical name is in the canonical-name list. -/
theorem Layer.display_mem_canonical (l : Layer) :
    Layer.display l ∈ canonicalLayerNames := by
  cases l <;> decide

/-- Every canonical name is accepted by the table. -/
theorem Layer.canonical_all_some :
    canonicalLayerNames.all (fun n => (Layer.ofName n).isSome) = true := by
  decide

/-- The conversion succeeds exactly on the canonical names. -/
theorem Layer.accepted_iff (name : String) :
    (∃ l, Layer.tryFrom (.list [.symbol "layer", .value name]) = .ok l) ↔
      name ∈ canonicalLayerNames := by
  rw [Layer.tryFrom_layer_list]
  constructor
  · rintro ⟨l, hl⟩
    cases hof : Layer.ofName name with
    | none =>
      rw [hof] at hl
      exact Except.noConfusion hl
    | some l2 =>
      rw [← Layer.ofName_display name l2 hof]
      exact Layer.display_mem_canonical l2
  · intro hmem
    have hsome := List.all_eq_true.1 Layer.canonical_all_some name hmem
    cases hof : Layer.ofName name with
    | none =>
      rw [hof] at hsome
      exact absurd hsome (by simp)
    | some l =>
      exact ⟨l, rfl⟩

/-- The canonical-name list has no duplicates. -/
theorem canonicalLayerNames_nodup : canonicalLayerNames.Nodup := by decide

/-- C10 (amended): converting a `(layer NAME)` list succeeds exactly when
NAME (a quoted value) is one of the 58 canonical KiCad layer names — not
57 — mapping each name to its unique variant; `Display` of the resulting
variant returns the original name. -/
theorem C10_layer_names :
    (∀ name : String,
      (∃ l, Layer.tryFrom (.list [.symbol "layer", .value name]) = .ok l) ↔
        name ∈ canonicalLayerNames) ∧
    (∀ (name : String) (l : Layer),
      Layer.tryFrom (.list [.symbol "layer", .value name]) = .ok l →
      Layer.display l = name) ∧
    canonicalLayerNames.Nodup ∧
    canonicalLayerNames.length = 58 := by
  refine ⟨Layer.accepted_iff, ?_, canonicalLayerNames_nodup, rfl⟩
  intro name l hl
  rw [Layer.tryFrom_layer_list] at hl
  cases hof : Layer.ofName name with
  | none =>
    rw [hof] at hl
    exact Except.noConfusion hl
  | some l2 =>
    rw [hof] at hl
    cases hl
    exact Layer.ofName_display name _ hof

/-- C10 counterexample: the set of accepted layer names cannot be a
57-element set — it is the 58-element canonical list. -/
theorem C10_fifty_seven_counterexample :
    ¬ ∃ names : List String, names.Nodup ∧ names.length = 57 ∧
      ∀ name : String,
        (∃ l, Layer.tryFrom (.list [.symbol "layer", .value name]) = .ok l) ↔
          name ∈ names := by
  rintro ⟨names, hnd, hlen, hiff⟩
  have hmem : ∀ s, s ∈ names ↔ s ∈ canonicalLayerNames :=
    fun s => (hiff s).symm.trans (Layer.accepted_iff s)
  have hperm : names.Perm canonicalLayerNames :=
    (List.perm_ext_iff_of_nodup hnd canonicalLayerNames_nodup).2 hmem
  have := hperm.length_eq
  rw [hlen] at this
  exact absurd this (by decide)

/-- C10 witness: the round-trip applied at the concrete name `F.Cu`. -/
theorem C10_layer_names_witness :
    Layer.display Layer.FCu = "F.Cu" :=
  C10_layer_names.2.1 "F.Cu" Layer.FCu (by with_unfolding_all rfl)

end KicadParser
